import Mathlib

/-!
Verification of `tools/sync_course_structure.py`.

A shallow embedding of the course-structure synchronisation script of the
Modern-Cpp-Patterns repository, together with theorems settling the frozen
claims about it.

The script scans lesson directories, derives per-lesson presence flags for
eight kinds of artefacts, computes a weighted completion percentage, assigns
a status label and symbol, aggregates per-module statistics, and renders a
markdown report and a console summary.

Python primitives that the script relies on (`str.split`, `str.title`,
`int(...)`, `sorted`, glob matching) are modelled by structurally recursive,
kernel-executable Lean functions.  The percentage arithmetic the script
performs on Python floats is modelled by exact binary64 rounding on `ℚ`
(`floatRound` below: round to nearest, ties to even), characterized by
rounding lemmas; the places where the float results differ from the exact
rational values are settled explicitly by the claims about them.
-/

set_option autoImplicit false

namespace SyncCourse

/-! ## Python string primitives -/

/-- Python `s.split(sep)` for a single-character separator, on `List Char`.
`''.split('_') = ['']`, and consecutive separators yield empty segments,
exactly as in Python (and as in the `String.splitOn` of Lean for this case). -/
def splitCharList (sep : Char) : List Char → List (List Char)
  | [] => [[]]
  | c :: cs =>
    match splitCharList sep cs with
    | [] => [[]]
    | w :: ws => if c = sep then [] :: w :: ws else (c :: w) :: ws

/-- Python `s.split(sep)` for a single-character separator. -/
def pySplit (s : String) (sep : Char) : List String :=
  (splitCharList sep s.data).map String.mk

/-- Python `s.replace(old, new)` for single characters. -/
def pyReplaceChar (s : String) (old new : Char) : String :=
  String.mk (s.data.map (fun c => if c = old then new else c))

/-- Python `s.upper()` (ASCII case mapping suffices for the names used here). -/
def pyUpper (s : String) : String :=
  String.mk (s.data.map Char.toUpper)

/-- Helper for `pyTitle`: the boolean records whether the previous character
was alphabetic ("cased"). -/
def titleAux : Bool → List Char → List Char
  | _, [] => []
  | prevCased, c :: cs =>
    if c.isAlpha then
      (if prevCased then c.toLower else c.toUpper) :: titleAux true cs
    else
      c :: titleAux false cs

/-- Python `s.title()`: the first character of every maximal alphabetic run is
uppercased, the remaining characters of the run are lowercased. -/
def pyTitle (s : String) : String :=
  String.mk (titleAux false s.data)

/-- Python `sep.join(parts)`. -/
def pyJoin (sep : String) : List String → String
  | [] => ""
  | [s] => s
  | s :: rest => s ++ sep ++ pyJoin sep rest

/-- Python `str.strip()` on a character list (whitespace at both ends). -/
def pyStripList (cs : List Char) : List Char :=
  ((cs.dropWhile Char.isWhitespace).reverse.dropWhile Char.isWhitespace).reverse

/-- Python `int(s)`: optional whitespace, optional sign, then one or more
ASCII digits (the digit-grouping underscore extension is irrelevant here
because the arguments are underscore-free segments).  Returns `none` where
Python `int` raises `ValueError`. -/
def pyInt? (s : String) : Option Int :=
  let cs := pyStripList s.data
  let signAndDigits : Int × List Char :=
    match cs with
    | '-' :: rest => (-1, rest)
    | '+' :: rest => (1, rest)
    | _ => (1, cs)
  let ds := signAndDigits.2
  if ds = [] then none
  else if ds.all Char.isDigit then
    some (signAndDigits.1 * (ds.foldl (fun a c => a * 10 + (c.toNat - '0'.toNat)) 0 : Nat))
  else none

/-! ## Glob matching (`pathlib.Path.glob` with `*` wildcards only) -/

/-- Fuel-indexed matcher: `*` matches any (possibly empty) run of characters,
every other character matches itself.  The patterns of the script use no other
wildcard. -/
def globMatchAux : Nat → List Char → List Char → Bool
  | 0, _, _ => false
  | _ + 1, [], [] => true
  | _ + 1, [], _ :: _ => false
  | fuel + 1, '*' :: ps, [] => globMatchAux fuel ps []
  | fuel + 1, '*' :: ps, c :: cs =>
    globMatchAux fuel ps (c :: cs) || globMatchAux fuel ('*' :: ps) cs
  | fuel + 1, p :: ps, c :: cs => p = c && globMatchAux fuel ps cs
  | _ + 1, _ :: _, [] => false

/-- Whether the file name matches the glob pattern: `globMatch pat name` does the file name match the glob pattern?
The fuel `pat.length + name.length + 1` strictly exceeds every recursion
depth, so the `0` branch is never taken. -/
def globMatch (pat name : String) : Bool :=
  globMatchAux (pat.data.length + name.data.length + 1) pat.data name.data

/-! ## Data model (from `sync_course_structure.py`) -/

/-- A lesson directory as the scanner sees it: its name, the names of the
regular files directly inside it, and the contents of the `exploits`
subdirectory when that subdirectory exists. -/
structure LessonDir where
  name : String
  files : List String
  exploitsFiles : Option (List String)
deriving Repr, DecidableEq

/-- The `PatternStatus` dataclass (lines 32-60 of the script).  The `directory`
field stores the lesson directory name (the path prefix up to the project
root is inert for every claim). -/
structure PatternStatus where
  module_number : Int
  module_name : String
  lesson_number : Int
  lesson_name : String
  pattern_name : String
  directory : String
  has_readme : Bool := false
  has_cmakelists : Bool := false
  has_security_analysis : Bool := false
  has_security_poster : Bool := false
  has_vulnerabilities : Bool := false
  has_exploits : Bool := false
  has_secure_alternatives : Bool := false
  has_cpp23_comparison : Bool := false
  main_cpp_files : List String := []
  other_files : List String := []
deriving Repr, DecidableEq

namespace PatternStatus

/-- The weights dictionary of `completion_percentage` (lines 65-74), in
insertion order, as attribute selectors paired with weights. -/
def weights : List ((PatternStatus → Bool) × ℕ) :=
  [(fun s => s.has_readme, 10),
   (fun s => s.has_cmakelists, 10),
   (fun s => s.has_security_analysis, 15),
   (fun s => s.has_security_poster, 15),
   (fun s => s.has_vulnerabilities, 15),
   (fun s => s.has_exploits, 10),
   (fun s => s.has_secure_alternatives, 15),
   (fun s => s.has_cpp23_comparison, 10)]

/-- Source `total_weight = sum(weights.values())`. -/
def total_weight : ℕ := (weights.map (fun w => w.2)).sum

/-- Source `achieved_weight`: the sum of the weights of the attributes that hold. -/
def achieved_weight (s : PatternStatus) : ℕ :=
  ((weights.filter (fun w => w.1 s)).map (fun w => w.2)).sum

/-- The exact rational value of the `completion_percentage` formula
(lines 62-82): `(achieved_weight / total_weight) * 100`.  The program
evaluates the expression in binary64; `completion_percentage_float` below is
the faithful float model.  The two differ only at achieved weight 55, where
the float result exceeds this exact value by one unit in the last place
(proved below); every status bracket boundary is float-exact and 55 sits
strictly inside its bracket, so the threshold and monotonicity claims stated
over this exact value hold equally of the program. -/
def completion_percentage (s : PatternStatus) : ℚ :=
  ((achieved_weight s : ℚ) / (total_weight : ℚ)) * 100

/-- The status-symbol branch of `get_status_emoji` (lines 84-96), as a
function of the completion value. -/
def statusEmojiOf (completion : ℚ) : String :=
  if completion ≥ 90 then "✅"
  else if completion ≥ 70 then "🟢"
  else if completion ≥ 50 then "🟡"
  else if completion ≥ 30 then "🟠"
  else "🔴"

/-- Source `get_status_emoji` (lines 84-96). -/
def get_status_emoji (s : PatternStatus) : String :=
  statusEmojiOf s.completion_percentage

/-- The status-label branch of `get_status_text` (lines 98-110), as a
function of the completion value. -/
def statusTextOf (completion : ℚ) : String :=
  if completion ≥ 90 then "ПОЛНОСТЬЮ РЕАЛИЗОВАН"
  else if completion ≥ 70 then "ПРАКТИЧЕСКИ ЗАВЕРШЁН"
  else if completion ≥ 50 then "ЧАСТИЧНО РЕАЛИЗОВАН"
  else if completion ≥ 30 then "БАЗОВАЯ СТРУКТУРА"
  else "МИНИМАЛЬНАЯ СТРУКТУРА"

/-- Source `get_status_text` (lines 98-110). -/
def get_status_text (s : PatternStatus) : String :=
  statusTextOf s.completion_percentage

end PatternStatus

/-! ## Binary64 arithmetic (the script computes percentages in Python floats) -/

/-- Round to the nearest integer, ties to even (the rounding of IEEE-754
and of CPython float formatting). -/
def rndHE (q : ℚ) : ℤ :=
  let f := ⌊q⌋
  let r := q - (f : ℚ)
  if r < 1 / 2 then f
  else if 1 / 2 < r then f + 1
  else if f % 2 = 0 then f else f + 1

/-- Positive branch of binary64 rounding: with exponent `Int.log 2 q`, round
the 53-bit mantissa to the nearest integer, ties to even. -/
def floatRoundPos (q : ℚ) : ℚ :=
  ((rndHE (q * (2 : ℚ) ^ (52 - Int.log 2 q)) : ℤ) : ℚ) * (2 : ℚ) ^ (Int.log 2 q - 52)

/-- Correctly rounded IEEE-754 binary64 value of an exact rational (round to
nearest, ties to even) in the normal range; no overflow or subnormal value
arises in this program. -/
def floatRound (q : ℚ) : ℚ :=
  if q = 0 then 0
  else if 0 < q then floatRoundPos q
  else -floatRoundPos (-q)

/-- Binary64 division (CPython float division): the exact quotient,
correctly rounded. -/
def pyFloatDiv (a b : ℚ) : ℚ :=
  floatRound (a / b)

/-- Binary64 multiplication: the exact product, correctly rounded. -/
def pyFloatMul (a b : ℚ) : ℚ :=
  floatRound (a * b)

/-- Binary64 addition: the exact sum, correctly rounded. -/
def pyFloatAdd (a b : ℚ) : ℚ :=
  floatRound (a + b)

/-- Python `sum` over floats: a left fold of rounded additions from `0`. -/
def pyFloatSum (l : List ℚ) : ℚ :=
  l.foldl pyFloatAdd 0

/-- The binary64 evaluation of `(a / total_weight) * 100`. -/
def floatCompletionOf (a : ℕ) : ℚ :=
  pyFloatMul (pyFloatDiv (a : ℚ) (PatternStatus.total_weight : ℚ)) 100

/-- Faithful binary64 model of `completion_percentage` (lines 62-82): the
program divides `achieved_weight` by `total_weight` and multiplies by `100`
in floats, each operation correctly rounded. -/
def completion_percentage_float (s : PatternStatus) : ℚ :=
  floatCompletionOf (PatternStatus.achieved_weight s)

/-- The achieved weights that the eight flags can realise. -/
def achievableWeights : List ℕ :=
  [0, 10, 15, 20, 25, 30, 35, 40, 45, 50, 55, 60, 65, 70, 75, 80, 85, 90, 100]

/-! ## Substring and sorting helpers -/

/-- Whether the characters `a` start the list `b`. -/
def isPrefOf : List Char → List Char → Bool
  | [], _ => true
  | _ :: _, [] => false
  | a :: as, b :: bs => a = b && isPrefOf as bs

/-- Python `needle in hay` on strings (substring containment). -/
def hasSub (needle : List Char) : List Char → Bool
  | [] => needle.isEmpty
  | c :: cs => isPrefOf needle (c :: cs) || hasSub needle cs

/-- Python `needle in hay` lifted to `String`. -/
def strIn (needle hay : String) : Bool :=
  hasSub needle.data hay.data

/-- Lexicographic comparison of character lists by code point (the order
Python uses on `str`, identical to the `String` order of Lean). -/
def charsLt : List Char → List Char → Bool
  | [], [] => false
  | [], _ :: _ => true
  | _ :: _, [] => false
  | a :: as, b :: bs =>
    if a.toNat < b.toNat then true
    else if b.toNat < a.toNat then false
    else charsLt as bs

/-- Comparison `a < b` on strings, by code point. -/
def strLt (a b : String) : Bool :=
  charsLt a.data b.data

/-- Stable insertion step for sorting `LessonDir`s by name (models the order
`sorted` produces on the paths of a directory). -/
def insertLesson (d : LessonDir) : List LessonDir → List LessonDir
  | [] => [d]
  | e :: es => if strLt e.name d.name then e :: insertLesson d es else d :: e :: es

/-- Stable sort of lesson directories by name (Python `sorted`). -/
def sortLessons : List LessonDir → List LessonDir
  | [] => []
  | d :: ds => insertLesson d (sortLessons ds)

/-- Stable insertion step for sorting strings. -/
def insertString (s : String) : List String → List String
  | [] => [s]
  | e :: es => if strLt e s then e :: insertString s es else s :: e :: es

/-- Stable sort of strings (Python `sorted`). -/
def sortStrings : List String → List String
  | [] => []
  | s :: ss => insertString s (sortStrings ss)

/-! ## The scanner -/

/-- Source `_scan_lesson` (lines 179-243).  Python raising `ValueError` at
`int(parts[1])` is `Except.error`; the Python function returning `None`
(fewer than three underscore segments) is `Except.ok none`.

Two flag assignments deserve attention.  In the source,

  `status.has_security_poster = any(lesson_dir.glob(pattern) for pattern in poster_patterns)`
  `status.has_cpp23_comparison = any(lesson_dir.glob(pattern) for pattern in cpp23_patterns)`

`any` there consumes a generator whose *elements* are the generator objects
returned by `glob`, and a generator object is always truthy regardless of
whether it would yield any path.  Hence each of the two expressions evaluates
to `True` exactly when its pattern list is non-empty, never consulting the
file system; the embedding reproduces this faithfully as
`!patterns.isEmpty`.  (Contrast `has_vulnerabilities`, where `any` is applied
directly to a single `glob` iterator and therefore does test for a matching
file.) -/
def scanLesson (module_num : Int) (module_name : String) (d : LessonDir) :
    Except String (Option PatternStatus) :=
  let parts := pySplit d.name '_'
  if parts.length < 3 then .ok none
  else
    match pyInt? parts[1]! with
    | none => .error ("ValueError: invalid literal for int() with base 10: " ++ parts[1]!)
    | some lesson_num =>
      let pattern_name := if parts.length > 3 then pyJoin "_" (parts.drop 3) else parts[2]!
      let lesson_name := pyTitle (pyReplaceChar pattern_name '_' ' ')
      let poster_patterns : List String :=
        ["*SECURITY_POSTER.md", pyUpper pattern_name ++ "_SECURITY_POSTER.md"]
      let cpp23_patterns : List String :=
        ["*_cpp23_comparison.cpp", "*_cpp23_*.cpp"]
      .ok (some
        { module_number := module_num
          module_name := module_name
          lesson_number := lesson_num
          lesson_name := lesson_name
          pattern_name := pattern_name
          directory := d.name
          has_readme := d.files.contains "README.md"
          has_cmakelists := d.files.contains "CMakeLists.txt"
          has_security_analysis := d.files.contains "SECURITY_ANALYSIS.md"
          has_security_poster := !poster_patterns.isEmpty
          has_vulnerabilities := d.files.any (fun f => globMatch "*_vulnerabilities.cpp" f)
          has_exploits :=
            match d.exploitsFiles with
            | none => false
            | some fs => fs.any (fun f => globMatch "*.cpp" f)
          has_secure_alternatives := d.files.any (fun f => globMatch "secure_*_alternatives.cpp" f)
          has_cpp23_comparison := !cpp23_patterns.isEmpty
          main_cpp_files := d.files.filter (fun f =>
            globMatch "*.cpp" f && !strIn "vulnerabilities" f &&
            !strIn "secure_" f && !strIn "cpp23" f)
          other_files := d.files.filter (fun f =>
            globMatch "*.md" f && !(f = "README.md") && !(f = "SECURITY_ANALYSIS.md") &&
            !strIn "SECURITY_POSTER" f) })

/-- The `ModuleStats` dataclass (lines 113-126). -/
structure ModuleStats where
  module_number : Int
  module_name : String
  patterns : List PatternStatus := []
deriving Repr, DecidableEq

/-- Source `ModuleStats.total_patterns`. -/
def ModuleStats.total_patterns (m : ModuleStats) : ℕ :=
  m.patterns.length

/-- Source `ModuleStats.average_completion` (lines 123-126), under the float
semantics of the program: `0.0` for an empty module, otherwise Python
`sum(...)` — a left fold of correctly rounded additions starting from `0` —
divided by the count with a correctly rounded division.  The summands are
the binary64 lesson percentages. -/
def ModuleStats.average_completion (m : ModuleStats) : ℚ :=
  if m.patterns = [] then 0
  else pyFloatDiv (pyFloatSum (m.patterns.map completion_percentage_float))
    (m.patterns.length : ℚ)

/-- The `MODULES` dictionary (lines 133-143), in insertion order. -/
def MODULES : List (String × Int × String) :=
  [("01-basics", 1, "Основы C++"),
   ("02-principles", 2, "Принципы проектирования"),
   ("03-creational", 3, "Порождающие паттерны"),
   ("04-structural", 4, "Структурные паттерны"),
   ("05-behavioral", 5, "Поведенческие паттерны"),
   ("06-modern-cpp", 6, "Современный C++"),
   ("07-concurrency", 7, "Паттерны многопоточности"),
   ("08-high-load", 8, "Паттерны высоконагруженных систем"),
   ("09-performance", 9, "Паттерны производительности")]

/-- The project as the scanner sees it: the module directories that exist
under the project root, each with the lesson subdirectories it holds. -/
def Project := List (String × List LessonDir)

/-- Source `module_path.exists()` plus listing: look the module directory up. -/
def lookupModule : List (String × List LessonDir) → String → Option (List LessonDir)
  | [], _ => none
  | (n, ds) :: rest, key => if n = key then some ds else lookupModule rest key

/-- The inner loop of `scan` over the lesson directories of one module
(lines 165-172): scan each in order, drop `None` results, keep the rest,
propagate an exception. -/
def scanLessons (module_num : Int) (module_name : String) :
    List LessonDir → Except String (List PatternStatus)
  | [] => .ok []
  | d :: rest =>
    match scanLesson module_num module_name d with
    | .error e => .error e
    | .ok none => scanLessons module_num module_name rest
    | .ok (some s) =>
      match scanLessons module_num module_name rest with
      | .error e => .error e
      | .ok ps => .ok (s :: ps)

/-- The outer loop of `scan` (lines 154-175) over the `MODULES` entries:
missing module directories are skipped; the glob `lesson_*` selects the
lesson subdirectories, which are scanned in sorted order; a module whose
scan produced no patterns is not entered into `self.modules`.  The result
pairs `self.patterns` with the `self.modules` association list. -/
def scanModules (proj : List (String × List LessonDir)) :
    List (String × Int × String) →
    Except String (List PatternStatus × List (Int × ModuleStats))
  | [] => .ok ([], [])
  | (dirName, num, mname) :: rest =>
    match lookupModule proj dirName with
    | none => scanModules proj rest
    | some dirs =>
      match scanLessons num mname
          (sortLessons (dirs.filter (fun d => globMatch "lesson_*" d.name))) with
      | .error e => .error e
      | .ok ps =>
        match scanModules proj rest with
        | .error e => .error e
        | .ok (allPatterns, mods) =>
          if ps = [] then .ok (allPatterns, mods)
          else .ok (ps ++ allPatterns, (num, ⟨num, mname, ps⟩) :: mods)

/-- Source `CourseStructureScanner.scan` (lines 150-177). -/
def scan (proj : List (String × List LessonDir)) :
    Except String (List PatternStatus × List (Int × ModuleStats)) :=
  scanModules proj MODULES

/-! ## Overall statistics and report generation -/

/-- The dictionary returned by `get_overall_stats` (lines 245-267). -/
structure OverallStats where
  total_patterns : ℕ
  average_completion : ℚ
  files : List (String × ℕ)
  modules : ℕ
deriving Repr, DecidableEq

/-- Source `get_overall_stats` (lines 245-267).  The mean completion is guarded:
`... / total_patterns if total_patterns else 0`. -/
def get_overall_stats (patterns : List PatternStatus)
    (modules : List (Int × ModuleStats)) : OverallStats :=
  let total := patterns.length
  { total_patterns := total
    average_completion :=
      if total = 0 then 0
      else (patterns.map PatternStatus.completion_percentage).sum / (total : ℚ)
    files :=
      [("readme", (patterns.filter (fun p => p.has_readme)).length),
       ("cmakelists", (patterns.filter (fun p => p.has_cmakelists)).length),
       ("security_analysis", (patterns.filter (fun p => p.has_security_analysis)).length),
       ("security_poster", (patterns.filter (fun p => p.has_security_poster)).length),
       ("vulnerabilities", (patterns.filter (fun p => p.has_vulnerabilities)).length),
       ("exploits", (patterns.filter (fun p => p.has_exploits)).length),
       ("secure_alternatives", (patterns.filter (fun p => p.has_secure_alternatives)).length),
       ("cpp23_comparison", (patterns.filter (fun p => p.has_cpp23_comparison)).length)]
    modules := modules.length }

/-- Python true division as it appears in the coverage computations:
`ZeroDivisionError` when the denominator is zero, the exact quotient
otherwise (idealizing the float quotient, whose value no claim inspects). -/
def pyDiv (a b : ℚ) : Except String ℚ :=
  if b = 0 then .error "ZeroDivisionError: division by zero" else .ok (a / b)

/-- Python `:.0f` formatting for the non-negative values arising here. -/
def fmt0 (q : ℚ) : String :=
  toString (rndHE q)

/-- Python `:.1f` formatting for the non-negative values arising here. -/
def fmt1 (q : ℚ) : String :=
  let n := rndHE (q * 10)
  toString (n / 10) ++ "." ++ toString (n % 10)

/-- Python left-justification of a string to width `w`. -/
def padRight (s : String) (w : ℕ) : String :=
  s ++ String.mk (List.replicate (w - s.data.length) ' ')

/-- Python right-justification of a string to width `w`. -/
def padLeft (s : String) (w : ℕ) : String :=
  String.mk (List.replicate (w - s.data.length) ' ') ++ s

/-- Run a fallible renderer over a list, stopping at the first exception. -/
def mapExcept {α β : Type} (f : α → Except String β) : List α → Except String (List β)
  | [] => .ok []
  | a :: as =>
    match f a with
    | .error e => .error e
    | .ok b =>
      match mapExcept f as with
      | .error e => .error e
      | .ok bs => .ok (b :: bs)

/-- One row of the coverage table (lines 297-301): divides the component
count by the total pattern count before anything else. -/
def coverageRow (total : ℕ) (entry : String × ℕ) : Except String String :=
  match pyDiv (entry.2 : ℚ) (total : ℚ) with
  | .error e => .error e
  | .ok q =>
    let percentage := q * 100
    let emoji := if percentage ≥ 90 then "✅" else if percentage ≥ 70 then "🟡" else "🔴"
    let component_name := pyTitle (pyReplaceChar entry.1 '_' ' ')
    .ok ("| " ++ component_name ++ " | " ++ toString entry.2 ++ "/" ++ toString total ++
         " | " ++ emoji ++ " " ++ fmt0 percentage ++ "% |")

/-- The component-glyph list of the per-module lesson table (lines 325-332):
seven of the eight presence flags contribute a glyph; `has_cmakelists` is
not consulted. -/
def components (p : PatternStatus) : List String :=
  (if p.has_readme then ["📖"] else []) ++
  (if p.has_security_analysis then ["🔒"] else []) ++
  (if p.has_security_poster then ["📋"] else []) ++
  (if p.has_vulnerabilities then ["⚠️"] else []) ++
  (if p.has_exploits then ["💣"] else []) ++
  (if p.has_secure_alternatives then ["✅"] else []) ++
  (if p.has_cpp23_comparison then ["🚀"] else [])

/-- The components cell (line 334): `" ".join(components) if components else "—"`. -/
def components_str (p : PatternStatus) : String :=
  if components p = [] then "—" else pyJoin " " (components p)

/-- One row of the per-module lesson table (lines 336-340). -/
def patternRow (p : PatternStatus) : String :=
  "| " ++ toString p.lesson_number ++ " | " ++ p.lesson_name ++ " | " ++
  p.get_status_emoji ++ " " ++ p.get_status_text ++ " | " ++
  fmt0 p.completion_percentage ++ "% | " ++ components_str p ++ " |"

/-- The expression `if flag then check else cross` of the detail lines. -/
def checkMark (b : Bool) : String :=
  if b then "✅" else "❌"

/-- Source `_add_pattern_details` (lines 378-417), as the list of lines appended. -/
def patternDetails (p : PatternStatus) : List String :=
  ["#### Урок " ++ toString p.module_number ++ "." ++ toString p.lesson_number ++ ": " ++
     p.lesson_name ++ " " ++ p.get_status_emoji ++ " (" ++ fmt0 p.completion_percentage ++ "%)",
   "",
   "**Структура:**",
   "- README.md " ++ checkMark p.has_readme,
   "- CMakeLists.txt " ++ checkMark p.has_cmakelists] ++
  (sortStrings p.main_cpp_files).map (fun f => "- " ++ f ++ " ✅") ++
  ["",
   "**Security:**",
   "- SECURITY_ANALYSIS.md " ++ checkMark p.has_security_analysis,
   "- Security Poster " ++ checkMark p.has_security_poster,
   "- Vulnerabilities " ++ checkMark p.has_vulnerabilities,
   "- Exploits " ++ checkMark p.has_exploits,
   "- Secure Alternatives " ++ checkMark p.has_secure_alternatives,
   "",
   "**Modern C++:**",
   "- C++23 Comparison " ++ checkMark p.has_cpp23_comparison] ++
  (if p.other_files = [] then []
   else "" :: "**Дополнительно:**" ::
     (sortStrings p.other_files).map (fun f => "- " ++ f ++ " ✅")) ++
  [""]

/-- One module section of the report (lines 311-349). -/
def moduleSection (m : ModuleStats) : List String :=
  ["### Модуль " ++ toString m.module_number ++ ": " ++ m.module_name,
   "",
   "**Паттернов**: " ++ toString m.total_patterns ++
     " | **Завершённость**: " ++ fmt1 m.average_completion ++ "%",
   "",
   "| # | Паттерн | Статус | Завершено | Компоненты |",
   "|---|---------|--------|-----------|------------|"] ++
  m.patterns.map patternRow ++
  [""] ++
  (m.patterns.map patternDetails).flatten ++
  ["---", ""]

/-- Stable insertion step for sorting the module map by key. -/
def insertModule (x : Int × ModuleStats) :
    List (Int × ModuleStats) → List (Int × ModuleStats)
  | [] => [x]
  | e :: es => if e.1 < x.1 then e :: insertModule x es else x :: e :: es

/-- Python `sorted(self.modules.keys())` followed by lookup: the module sections are
emitted in increasing key order. -/
def sortModules : List (Int × ModuleStats) → List (Int × ModuleStats)
  | [] => []
  | x :: xs => insertModule x (sortModules xs)

/-- The legend block (lines 352-370). -/
def legendLines : List String :=
  ["## 📖 Легенда",
   "",
   "### Компоненты",
   "- 📖 README.md - документация урока",
   "- 🔒 SECURITY_ANALYSIS.md - анализ безопасности",
   "- 📋 *_SECURITY_POSTER.md - security плакат",
   "- ⚠️ *_vulnerabilities.cpp - уязвимые реализации",
   "- 💣 exploits/*_exploits.cpp - эксплоиты",
   "- ✅ secure_*_alternatives.cpp - безопасные альтернативы",
   "- 🚀 *_cpp23_comparison.cpp - C++23 сравнение",
   "",
   "### Статусы",
   "- ✅ ПОЛНОСТЬЮ РЕАЛИЗОВАН (≥90%)",
   "- 🟢 ПРАКТИЧЕСКИ ЗАВЕРШЁН (70-89%)",
   "- 🟡 ЧАСТИЧНО РЕАЛИЗОВАН (50-69%)",
   "- 🟠 БАЗОВАЯ СТРУКТУРА (30-49%)",
   "- 🔴 МИНИМАЛЬНАЯ СТРУКТУРА (<30%)",
   ""]

/-- Source `generate_markdown` (lines 269-376).  `now` stands for the formatted
`datetime.now()` value; a `ZeroDivisionError` raised while the coverage
table is being built discards the whole report, which the `Except` result
captures. -/
def generate_markdown (now : String) (patterns : List PatternStatus)
    (modules : List (Int × ModuleStats)) : Except String String :=
  let stats := get_overall_stats patterns modules
  match mapExcept (coverageRow stats.total_patterns) stats.files with
  | .error e => .error e
  | .ok covRows =>
    .ok (pyJoin "\n"
      (["# 📁 Полная структура курса - Автоматически сгенерировано",
        "",
        "**Дата генерации**: " ++ now,
        "**Генератор**: `tools/sync_course_structure.py`",
        "",
        "---",
        "",
        "## 📊 Общая статистика",
        "",
        "**Всего паттернов**: " ++ toString stats.total_patterns,
        "**Средняя завершённость**: " ++ fmt1 stats.average_completion ++ "%",
        "**Модулей**: " ++ toString stats.modules,
        "",
        "### Покрытие компонентов",
        "",
        "| Компонент | Реализовано | Процент |",
        "|-----------|-------------|---------|"] ++
       covRows ++
       ["", "---", "", "## 📚 Детали по модулям", ""] ++
       ((sortModules modules).map (fun x => moduleSection x.2)).flatten ++
       legendLines ++
       ["---", "", "*Автоматически сгенерировано: " ++ now ++ "*"]))

/-- Stable insertion step for sorting the coverage entries by component name
(Python `sorted` on the coverage items; the keys are distinct, so the counts are
never compared). -/
def insertEntry (x : String × ℕ) : List (String × ℕ) → List (String × ℕ)
  | [] => [x]
  | e :: es => if strLt e.1 x.1 then e :: insertEntry x es else x :: e :: es

/-- Stable sort of the coverage entries by component name. -/
def sortEntries : List (String × ℕ) → List (String × ℕ)
  | [] => []
  | x :: xs => insertEntry x (sortEntries xs)

/-- One line of the console coverage block of `main` (lines 480-484): again
the count is divided by the total pattern count first. -/
def consoleCoverageLine (total : ℕ) (entry : String × ℕ) : Except String String :=
  match pyDiv (entry.2 : ℚ) (total : ℚ) with
  | .error e => .error e
  | .ok q =>
    let percentage := q * 100
    let emoji := if percentage ≥ 90 then "✅" else if percentage ≥ 70 then "🟡" else "🔴"
    let component_name := pyTitle (pyReplaceChar entry.1 '_' ' ')
    .ok ("  " ++ emoji ++ " " ++ padRight component_name 25 ++ " " ++
         padLeft (toString entry.2) 2 ++ "/" ++ padLeft (toString total) 2 ++
         " (" ++ padLeft (fmt1 percentage) 5 ++ "%)")

/-- The console coverage block of `main` (lines 479-484). -/
def consoleCoverage (stats : OverallStats) : Except String (List String) :=
  mapExcept (consoleCoverageLine stats.total_patterns) (sortEntries stats.files)

/-! ## Specification-side definitions (for refinement comparisons)

These follow the words of the specification, to be compared with the
definitions above, which follow the source. -/

/-- The completion formula as the specification states it: the sum of the
fixed weights of the true presence flags (documentation 10, build-descriptor
10, security-analysis 15, security-poster 15, vulnerability-sample 15,
exploit-sample 10, secure-alternative 15, modern-comparison 10), divided by
the total weight 100, times 100. -/
def specCompletion (s : PatternStatus) : ℚ :=
  (((if s.has_readme then 10 else 0) + (if s.has_cmakelists then 10 else 0) +
    (if s.has_security_analysis then 15 else 0) + (if s.has_security_poster then 15 else 0) +
    (if s.has_vulnerabilities then 15 else 0) + (if s.has_exploits then 10 else 0) +
    (if s.has_secure_alternatives then 15 else 0) +
    (if s.has_cpp23_comparison then 10 else 0) : ℚ) / 100) * 100

/-- The security-poster presence as the specification describes it: some
file of the directory matches the generic `*SECURITY_POSTER.md` pattern or
the pattern-specific uppercase variant. -/
def specHasSecurityPoster (pattern_name : String) (files : List String) : Bool :=
  files.any (fun f =>
    globMatch "*SECURITY_POSTER.md" f ||
    globMatch (pyUpper pattern_name ++ "_SECURITY_POSTER.md") f)

/-- The modern-comparison presence as the specification describes it: some
file of the directory matches `*_cpp23_comparison.cpp` or `*_cpp23_*.cpp`. -/
def specHasCpp23Comparison (files : List String) : Bool :=
  files.any (fun f =>
    globMatch "*_cpp23_comparison.cpp" f || globMatch "*_cpp23_*.cpp" f)

/-! ## Auxiliary closed forms and fixtures for the theorems -/

/-- Closed form: `achieved_weight` as an explicit function of the eight flags (closed
form, proved equal to the source definition below). -/
def condAchieved (b1 b2 b3 b4 b5 b6 b7 b8 : Bool) : ℕ :=
  cond b1 10 0 + cond b2 10 0 + cond b3 15 0 + cond b4 15 0 +
  cond b5 15 0 + cond b6 10 0 + cond b7 15 0 + cond b8 10 0

/-- Closed form: `components` as an explicit function of the seven flags it reads. -/
def comps7 (b1 b3 b4 b5 b6 b7 b8 : Bool) : List String :=
  (if b1 then ["📖"] else []) ++
  (if b3 then ["🔒"] else []) ++
  (if b4 then ["📋"] else []) ++
  (if b5 then ["⚠️"] else []) ++
  (if b6 then ["💣"] else []) ++
  (if b7 then ["✅"] else []) ++
  (if b8 then ["🚀"] else [])

/-- Closed form: `components_str` as an explicit function of the seven flags it reads. -/
def compsStr7 (b1 b3 b4 b5 b6 b7 b8 : Bool) : String :=
  if comps7 b1 b3 b4 b5 b6 b7 b8 = [] then "—"
  else pyJoin " " (comps7 b1 b3 b4 b5 b6 b7 b8)

instance {ε α : Type} [DecidableEq ε] [DecidableEq α] : DecidableEq (Except ε α) := fun a b => by
  cases a <;> cases b
  case error.error e f =>
    exact if h : e = f then .isTrue (by simp [h]) else .isFalse (by simp [h])
  case error.ok e x => exact .isFalse (by simp)
  case ok.error x e => exact .isFalse (by simp)
  case ok.ok x y =>
    exact if h : x = y then .isTrue (by simp [h]) else .isFalse (by simp [h])

/-- A lesson record with only the documentation and build-descriptor flags
set (the worked example of the specification). -/
def readmeCmakeOnly : PatternStatus :=
  { module_number := 1, module_name := "Основы C++", lesson_number := 1,
    lesson_name := "Raii", pattern_name := "raii", directory := "lesson_1_1_raii",
    has_readme := true, has_cmakelists := true }

/-- A lesson directory holding only a README: no file matches the
security-poster or C++23-comparison patterns. -/
def lessonNoPoster : LessonDir :=
  ⟨"lesson_1_1_singleton", ["README.md"], none⟩

/-- The record `_scan_lesson` produces for `lessonNoPoster`. -/
def lessonNoPosterStatus : PatternStatus :=
  { module_number := 1, module_name := "Основы C++", lesson_number := 1,
    lesson_name := "Singleton", pattern_name := "singleton",
    directory := "lesson_1_1_singleton", has_readme := true,
    has_security_poster := true, has_cpp23_comparison := true }

/-- A lesson directory whose name has three underscore-delimited segments
but a non-numeric second segment. -/
def lessonBadOrdinal : LessonDir :=
  ⟨"lesson_x_y_singleton", [], none⟩

/-- A lesson directory whose name has fewer than three underscore-delimited
segments. -/
def lessonShortName : LessonDir :=
  ⟨"lesson_1", [], none⟩

/-- A lesson directory whose name has more than three segments (for the
pattern-identifier claim). -/
def lessonFourSegments : LessonDir :=
  ⟨"lesson_1_1_abstract_factory", [], none⟩

/-- The record `_scan_lesson` produces for `lessonFourSegments`. -/
def lessonFourSegmentsStatus : PatternStatus :=
  { module_number := 1, module_name := "Основы C++", lesson_number := 1,
    lesson_name := "Abstract Factory", pattern_name := "abstract_factory",
    directory := "lesson_1_1_abstract_factory",
    has_security_poster := true, has_cpp23_comparison := true }

/-- A one-module, one-lesson project for the aggregation witness. -/
def smallProject : List (String × List LessonDir) :=
  [("01-basics", [⟨"lesson_1_1_raii", [], none⟩])]

/-- The record `scan` discovers in `smallProject`. -/
def smallProjectStatus : PatternStatus :=
  { module_number := 1, module_name := "Основы C++", lesson_number := 1,
    lesson_name := "Raii", pattern_name := "raii", directory := "lesson_1_1_raii",
    has_security_poster := true, has_cpp23_comparison := true }

/-- A lesson record whose only true presence flag is the build descriptor. -/
def cmakeOnly : PatternStatus :=
  { module_number := 1, module_name := "Основы C++", lesson_number := 1,
    lesson_name := "Raii", pattern_name := "raii", directory := "lesson_1_1_raii",
    has_cmakelists := true }

/-- A record whose true flags are documentation, security-analysis,
security-poster and vulnerability-sample: achieved weight 10+15+15+15 = 55,
the one achievable weight whose binary64 percentage is inexact. -/
def poster55 : PatternStatus :=
  { module_number := 1, module_name := "Основы C++", lesson_number := 1,
    lesson_name := "Raii", pattern_name := "raii", directory := "lesson_1_1_raii",
    has_readme := true, has_security_analysis := true,
    has_security_poster := true, has_vulnerabilities := true }

/-- A lesson record at 10 percent (documentation only). -/
def lesson10a : PatternStatus :=
  { module_number := 1, module_name := "Основы C++", lesson_number := 1,
    lesson_name := "Raii", pattern_name := "raii", directory := "lesson_1_1_raii",
    has_readme := true }

/-- Another lesson record at 10 percent (exploit sample only). -/
def lesson10b : PatternStatus :=
  { module_number := 1, module_name := "Основы C++", lesson_number := 2,
    lesson_name := "Raii", pattern_name := "raii", directory := "lesson_1_2_raii",
    has_exploits := true }

/-- A lesson record at 15 percent (security analysis only). -/
def lesson15c : PatternStatus :=
  { module_number := 1, module_name := "Основы C++", lesson_number := 3,
    lesson_name := "Raii", pattern_name := "raii", directory := "lesson_1_3_raii",
    has_security_analysis := true }

/-- A module whose three lessons score 10, 10 and 15 percent: the float
mean differs from the exact arithmetic mean `35 / 3`. -/
def moduleTenTenFifteen : ModuleStats :=
  ⟨1, "Основы C++", [lesson10a, lesson10b, lesson15c]⟩

/-! ## Helper lemmas -/

open PatternStatus

theorem total_weight_eq : total_weight = 100 := rfl

theorem achieved_weight_closed (s : PatternStatus) :
    achieved_weight s =
      condAchieved s.has_readme s.has_cmakelists s.has_security_analysis
        s.has_security_poster s.has_vulnerabilities s.has_exploits
        s.has_secure_alternatives s.has_cpp23_comparison := by
  rcases s with ⟨_, _, _, _, _, _, b1, b2, b3, b4, b5, b6, b7, b8, _, _⟩
  cases b1 <;> cases b2 <;> cases b3 <;> cases b4 <;>
    cases b5 <;> cases b6 <;> cases b7 <;> cases b8 <;> rfl

theorem completion_eq_achieved (s : PatternStatus) :
    completion_percentage s = (achieved_weight s : ℚ) := by
  unfold completion_percentage
  rw [total_weight_eq]
  push_cast
  rw [div_mul_cancel₀]
  norm_num

theorem condAchieved_le :
    ∀ b1 b2 b3 b4 b5 b6 b7 b8 : Bool, condAchieved b1 b2 b3 b4 b5 b6 b7 b8 ≤ 100 := by
  decide

theorem condAchieved_eq_100 :
    ∀ b1 b2 b3 b4 b5 b6 b7 b8 : Bool,
      (condAchieved b1 b2 b3 b4 b5 b6 b7 b8 = 100 ↔
        (b1 = true ∧ b2 = true ∧ b3 = true ∧ b4 = true ∧
         b5 = true ∧ b6 = true ∧ b7 = true ∧ b8 = true)) := by
  intro b1 b2 b3 b4 b5 b6 b7 b8
  cases b1 <;> cases b2 <;> cases b3 <;> cases b4 <;>
    cases b5 <;> cases b6 <;> cases b7 <;> cases b8 <;> decide

theorem cond_cast (b : Bool) (n : ℕ) :
    ((cond b n 0 : ℕ) : ℚ) = if b = true then (n : ℚ) else 0 := by
  cases b <;> simp

theorem cond_le_cond (b c : Bool) (n : ℕ) (h : b = true → c = true) :
    cond b n 0 ≤ cond c n 0 := by
  cases b
  · cases c <;> simp
  · rw [h rfl]

theorem condAchieved_mono (b1 b2 b3 b4 b5 b6 b7 b8 c1 c2 c3 c4 c5 c6 c7 c8 : Bool)
    (h1 : b1 = true → c1 = true) (h2 : b2 = true → c2 = true)
    (h3 : b3 = true → c3 = true) (h4 : b4 = true → c4 = true)
    (h5 : b5 = true → c5 = true) (h6 : b6 = true → c6 = true)
    (h7 : b7 = true → c7 = true) (h8 : b8 = true → c8 = true) :
    condAchieved b1 b2 b3 b4 b5 b6 b7 b8 ≤ condAchieved c1 c2 c3 c4 c5 c6 c7 c8 := by
  unfold condAchieved
  exact add_le_add (add_le_add (add_le_add (add_le_add (add_le_add (add_le_add
    (add_le_add (cond_le_cond b1 c1 10 h1) (cond_le_cond b2 c2 10 h2))
    (cond_le_cond b3 c3 15 h3)) (cond_le_cond b4 c4 15 h4))
    (cond_le_cond b5 c5 15 h5)) (cond_le_cond b6 c6 10 h6))
    (cond_le_cond b7 c7 15 h7)) (cond_le_cond b8 c8 10 h8)

theorem specCompletion_eq_achieved (s : PatternStatus) :
    specCompletion s = (achieved_weight s : ℚ) := by
  rw [achieved_weight_closed]
  unfold specCompletion condAchieved
  rw [div_mul_cancel₀ _ (by norm_num : (100 : ℚ) ≠ 0)]
  push_cast [cond_cast]
  ring

theorem condAchieved_mem :
    ∀ b1 b2 b3 b4 b5 b6 b7 b8 : Bool,
      condAchieved b1 b2 b3 b4 b5 b6 b7 b8 ∈ achievableWeights := by
  decide

theorem achieved_weight_mem (s : PatternStatus) :
    achieved_weight s ∈ achievableWeights := by
  rw [achieved_weight_closed]
  exact condAchieved_mem _ _ _ _ _ _ _ _

/-! ## Binary64 rounding lemmas -/

theorem log2_eq (q : ℚ) (E : ℤ) (h0 : 0 < q)
    (h1 : (2:ℚ) ^ E ≤ q) (h2 : q < (2:ℚ) ^ (E + 1)) :
    Int.log 2 q = E := by
  have ha : E ≤ Int.log 2 q :=
    (Int.zpow_le_iff_le_log one_lt_two h0).mp (by exact_mod_cast h1)
  have hc : Int.log 2 q < E + 1 :=
    (Int.lt_zpow_iff_log_lt one_lt_two h0).mp (by exact_mod_cast h2)
  omega

theorem rndHE_down (q : ℚ) (n : ℤ) (h1 : (n:ℚ) ≤ q) (h2 : q < (n:ℚ) + 1/2) :
    rndHE q = n := by
  have hf : ⌊q⌋ = n := Int.floor_eq_iff.mpr ⟨h1, by linarith⟩
  simp only [rndHE]
  rw [hf, if_pos (by linarith)]

theorem rndHE_up (q : ℚ) (n : ℤ) (h1 : (n:ℚ) - 1/2 < q) (h2 : q < (n:ℚ)) :
    rndHE q = n := by
  have hf : ⌊q⌋ = n - 1 := Int.floor_eq_iff.mpr ⟨by push_cast; linarith, by push_cast; linarith⟩
  simp only [rndHE]
  rw [hf, if_neg (by push_cast; linarith), if_pos (by push_cast; linarith)]
  omega

theorem floatRound_of_pos (q : ℚ) (E m : ℤ) (h0 : 0 < q)
    (h1 : (2:ℚ) ^ E ≤ q) (h2 : q < (2:ℚ) ^ (E + 1))
    (hm : rndHE (q * (2:ℚ) ^ (52 - E)) = m) :
    floatRound q = (m : ℚ) * (2:ℚ) ^ (E - 52) := by
  have hlog := log2_eq q E h0 h1 h2
  unfold floatRound floatRoundPos
  rw [if_neg (ne_of_gt h0), if_pos h0, hlog, hm]

theorem frZero : floatRound 0 = 0 := by
  unfold floatRound
  rw [if_pos rfl]

/-- The binary64 completion value at achieved weight `0`. -/
theorem fc_0 : floatCompletionOf 0 = 0 := by
  unfold floatCompletionOf pyFloatDiv pyFloatMul
  rw [show ((0 : ℕ) : ℚ) / ((PatternStatus.total_weight : ℕ) : ℚ) = (0 : ℚ) from by simp,
    frZero, show ((0 : ℚ) * 100) = (0 : ℚ) from by norm_num, frZero]

/-- Binary64 rounding of `10 / 100`. -/
theorem frDiv_10 : floatRound ((1 : ℚ) / 10) = ((3602879701896397 : ℚ) / 2 ^ 55) := by
  rw [floatRound_of_pos _ (-4) 7205759403792794 (by norm_num) (by norm_num) (by norm_num)
    (rndHE_up _ 7205759403792794 (by norm_num) (by norm_num))]
  norm_num

/-- Binary64 rounding of the product of the previous value with `100`. -/
theorem frMul_10 : floatRound ((90071992547409925 : ℚ) / 2 ^ 53) = (10 : ℚ) := by
  rw [floatRound_of_pos _ (3) 5629499534213120 (by norm_num) (by norm_num) (by norm_num)
    (rndHE_down _ 5629499534213120 (by norm_num) (by norm_num))]
  norm_num

/-- Binary64 rounding of `15 / 100`. -/
theorem frDiv_15 : floatRound ((3 : ℚ) / 20) = ((5404319552844595 : ℚ) / 2 ^ 55) := by
  rw [floatRound_of_pos _ (-3) 5404319552844595 (by norm_num) (by norm_num) (by norm_num)
    (rndHE_down _ 5404319552844595 (by norm_num) (by norm_num))]
  norm_num

/-- Binary64 rounding of the product of the previous value with `100`. -/
theorem frMul_15 : floatRound ((135107988821114875 : ℚ) / 2 ^ 53) = (15 : ℚ) := by
  rw [floatRound_of_pos _ (3) 8444249301319680 (by norm_num) (by norm_num) (by norm_num)
    (rndHE_up _ 8444249301319680 (by norm_num) (by norm_num))]
  norm_num

/-- Binary64 rounding of `20 / 100`. -/
theorem frDiv_20 : floatRound ((1 : ℚ) / 5) = ((3602879701896397 : ℚ) / 2 ^ 54) := by
  rw [floatRound_of_pos _ (-3) 7205759403792794 (by norm_num) (by norm_num) (by norm_num)
    (rndHE_up _ 7205759403792794 (by norm_num) (by norm_num))]
  norm_num

/-- Binary64 rounding of the product of the previous value with `100`. -/
theorem frMul_20 : floatRound ((90071992547409925 : ℚ) / 2 ^ 52) = (20 : ℚ) := by
  rw [floatRound_of_pos _ (4) 5629499534213120 (by norm_num) (by norm_num) (by norm_num)
    (rndHE_down _ 5629499534213120 (by norm_num) (by norm_num))]
  norm_num

/-- Binary64 rounding of `25 / 100`. -/
theorem frDiv_25 : floatRound ((1 : ℚ) / 4) = ((1 : ℚ) / 4) := by
  rw [floatRound_of_pos _ (-2) 4503599627370496 (by norm_num) (by norm_num) (by norm_num)
    (rndHE_down _ 4503599627370496 (by norm_num) (by norm_num))]
  norm_num

/-- Binary64 rounding of the product of the previous value with `100`. -/
theorem frMul_25 : floatRound (25 : ℚ) = (25 : ℚ) := by
  rw [floatRound_of_pos _ (4) 7036874417766400 (by norm_num) (by norm_num) (by norm_num)
    (rndHE_down _ 7036874417766400 (by norm_num) (by norm_num))]
  norm_num

/-- Binary64 rounding of `30 / 100`. -/
theorem frDiv_30 : floatRound ((3 : ℚ) / 10) = ((5404319552844595 : ℚ) / 2 ^ 54) := by
  rw [floatRound_of_pos _ (-2) 5404319552844595 (by norm_num) (by norm_num) (by norm_num)
    (rndHE_down _ 5404319552844595 (by norm_num) (by norm_num))]
  norm_num

/-- Binary64 rounding of the product of the previous value with `100`. -/
theorem frMul_30 : floatRound ((135107988821114875 : ℚ) / 2 ^ 52) = (30 : ℚ) := by
  rw [floatRound_of_pos _ (4) 8444249301319680 (by norm_num) (by norm_num) (by norm_num)
    (rndHE_up _ 8444249301319680 (by norm_num) (by norm_num))]
  norm_num

/-- Binary64 rounding of `35 / 100`. -/
theorem frDiv_35 : floatRound ((7 : ℚ) / 20) = ((3152519739159347 : ℚ) / 2 ^ 53) := by
  rw [floatRound_of_pos _ (-2) 6305039478318694 (by norm_num) (by norm_num) (by norm_num)
    (rndHE_down _ 6305039478318694 (by norm_num) (by norm_num))]
  norm_num

/-- Binary64 rounding of the product of the previous value with `100`. -/
theorem frMul_35 : floatRound ((78812993478983675 : ℚ) / 2 ^ 51) = (35 : ℚ) := by
  rw [floatRound_of_pos _ (5) 4925812092436480 (by norm_num) (by norm_num) (by norm_num)
    (rndHE_up _ 4925812092436480 (by norm_num) (by norm_num))]
  norm_num

/-- Binary64 rounding of `40 / 100`. -/
theorem frDiv_40 : floatRound ((2 : ℚ) / 5) = ((3602879701896397 : ℚ) / 2 ^ 53) := by
  rw [floatRound_of_pos _ (-2) 7205759403792794 (by norm_num) (by norm_num) (by norm_num)
    (rndHE_up _ 7205759403792794 (by norm_num) (by norm_num))]
  norm_num

/-- Binary64 rounding of the product of the previous value with `100`. -/
theorem frMul_40 : floatRound ((90071992547409925 : ℚ) / 2 ^ 51) = (40 : ℚ) := by
  rw [floatRound_of_pos _ (5) 5629499534213120 (by norm_num) (by norm_num) (by norm_num)
    (rndHE_down _ 5629499534213120 (by norm_num) (by norm_num))]
  norm_num

/-- Binary64 rounding of `45 / 100`. -/
theorem frDiv_45 : floatRound ((9 : ℚ) / 20) = ((8106479329266893 : ℚ) / 2 ^ 54) := by
  rw [floatRound_of_pos _ (-2) 8106479329266893 (by norm_num) (by norm_num) (by norm_num)
    (rndHE_up _ 8106479329266893 (by norm_num) (by norm_num))]
  norm_num

/-- Binary64 rounding of the product of the previous value with `100`. -/
theorem frMul_45 : floatRound ((202661983231672325 : ℚ) / 2 ^ 52) = (45 : ℚ) := by
  rw [floatRound_of_pos _ (5) 6333186975989760 (by norm_num) (by norm_num) (by norm_num)
    (rndHE_down _ 6333186975989760 (by norm_num) (by norm_num))]
  norm_num

/-- Binary64 rounding of `50 / 100`. -/
theorem frDiv_50 : floatRound ((1 : ℚ) / 2) = ((1 : ℚ) / 2) := by
  rw [floatRound_of_pos _ (-1) 4503599627370496 (by norm_num) (by norm_num) (by norm_num)
    (rndHE_down _ 4503599627370496 (by norm_num) (by norm_num))]
  norm_num

/-- Binary64 rounding of the product of the previous value with `100`. -/
theorem frMul_50 : floatRound (50 : ℚ) = (50 : ℚ) := by
  rw [floatRound_of_pos _ (5) 7036874417766400 (by norm_num) (by norm_num) (by norm_num)
    (rndHE_down _ 7036874417766400 (by norm_num) (by norm_num))]
  norm_num

/-- Binary64 rounding of `55 / 100`. -/
theorem frDiv_55 : floatRound ((11 : ℚ) / 20) = ((2476979795053773 : ℚ) / 2 ^ 52) := by
  rw [floatRound_of_pos _ (-1) 4953959590107546 (by norm_num) (by norm_num) (by norm_num)
    (rndHE_up _ 4953959590107546 (by norm_num) (by norm_num))]
  norm_num

/-- Binary64 rounding of the product of the previous value with `100`. -/
theorem frMul_55 : floatRound ((61924494876344325 : ℚ) / 2 ^ 50) = ((7740561859543041 : ℚ) / 2 ^ 47) := by
  rw [floatRound_of_pos _ (5) 7740561859543041 (by norm_num) (by norm_num) (by norm_num)
    (rndHE_up _ 7740561859543041 (by norm_num) (by norm_num))]
  norm_num

/-- Binary64 rounding of `60 / 100`. -/
theorem frDiv_60 : floatRound ((3 : ℚ) / 5) = ((5404319552844595 : ℚ) / 2 ^ 53) := by
  rw [floatRound_of_pos _ (-1) 5404319552844595 (by norm_num) (by norm_num) (by norm_num)
    (rndHE_down _ 5404319552844595 (by norm_num) (by norm_num))]
  norm_num

/-- Binary64 rounding of the product of the previous value with `100`. -/
theorem frMul_60 : floatRound ((135107988821114875 : ℚ) / 2 ^ 51) = (60 : ℚ) := by
  rw [floatRound_of_pos _ (5) 8444249301319680 (by norm_num) (by norm_num) (by norm_num)
    (rndHE_up _ 8444249301319680 (by norm_num) (by norm_num))]
  norm_num

/-- Binary64 rounding of `65 / 100`. -/
theorem frDiv_65 : floatRound ((13 : ℚ) / 20) = ((5854679515581645 : ℚ) / 2 ^ 53) := by
  rw [floatRound_of_pos _ (-1) 5854679515581645 (by norm_num) (by norm_num) (by norm_num)
    (rndHE_up _ 5854679515581645 (by norm_num) (by norm_num))]
  norm_num

/-- Binary64 rounding of the product of the previous value with `100`. -/
theorem frMul_65 : floatRound ((146366987889541125 : ℚ) / 2 ^ 51) = (65 : ℚ) := by
  rw [floatRound_of_pos _ (6) 4573968371548160 (by norm_num) (by norm_num) (by norm_num)
    (rndHE_down _ 4573968371548160 (by norm_num) (by norm_num))]
  norm_num

/-- Binary64 rounding of `70 / 100`. -/
theorem frDiv_70 : floatRound ((7 : ℚ) / 10) = ((3152519739159347 : ℚ) / 2 ^ 52) := by
  rw [floatRound_of_pos _ (-1) 6305039478318694 (by norm_num) (by norm_num) (by norm_num)
    (rndHE_down _ 6305039478318694 (by norm_num) (by norm_num))]
  norm_num

/-- Binary64 rounding of the product of the previous value with `100`. -/
theorem frMul_70 : floatRound ((78812993478983675 : ℚ) / 2 ^ 50) = (70 : ℚ) := by
  rw [floatRound_of_pos _ (6) 4925812092436480 (by norm_num) (by norm_num) (by norm_num)
    (rndHE_up _ 4925812092436480 (by norm_num) (by norm_num))]
  norm_num

/-- Binary64 rounding of `75 / 100`. -/
theorem frDiv_75 : floatRound ((3 : ℚ) / 4) = ((3 : ℚ) / 4) := by
  rw [floatRound_of_pos _ (-1) 6755399441055744 (by norm_num) (by norm_num) (by norm_num)
    (rndHE_down _ 6755399441055744 (by norm_num) (by norm_num))]
  norm_num

/-- Binary64 rounding of the product of the previous value with `100`. -/
theorem frMul_75 : floatRound (75 : ℚ) = (75 : ℚ) := by
  rw [floatRound_of_pos _ (6) 5277655813324800 (by norm_num) (by norm_num) (by norm_num)
    (rndHE_down _ 5277655813324800 (by norm_num) (by norm_num))]
  norm_num

/-- Binary64 rounding of `80 / 100`. -/
theorem frDiv_80 : floatRound ((4 : ℚ) / 5) = ((3602879701896397 : ℚ) / 2 ^ 52) := by
  rw [floatRound_of_pos _ (-1) 7205759403792794 (by norm_num) (by norm_num) (by norm_num)
    (rndHE_up _ 7205759403792794 (by norm_num) (by norm_num))]
  norm_num

/-- Binary64 rounding of the product of the previous value with `100`. -/
theorem frMul_80 : floatRound ((90071992547409925 : ℚ) / 2 ^ 50) = (80 : ℚ) := by
  rw [floatRound_of_pos _ (6) 5629499534213120 (by norm_num) (by norm_num) (by norm_num)
    (rndHE_down _ 5629499534213120 (by norm_num) (by norm_num))]
  norm_num

/-- Binary64 rounding of `85 / 100`. -/
theorem frDiv_85 : floatRound ((17 : ℚ) / 20) = ((7656119366529843 : ℚ) / 2 ^ 53) := by
  rw [floatRound_of_pos _ (-1) 7656119366529843 (by norm_num) (by norm_num) (by norm_num)
    (rndHE_down _ 7656119366529843 (by norm_num) (by norm_num))]
  norm_num

/-- Binary64 rounding of the product of the previous value with `100`. -/
theorem frMul_85 : floatRound ((191402984163246075 : ℚ) / 2 ^ 51) = (85 : ℚ) := by
  rw [floatRound_of_pos _ (6) 5981343255101440 (by norm_num) (by norm_num) (by norm_num)
    (rndHE_up _ 5981343255101440 (by norm_num) (by norm_num))]
  norm_num

/-- Binary64 rounding of `90 / 100`. -/
theorem frDiv_90 : floatRound ((9 : ℚ) / 10) = ((8106479329266893 : ℚ) / 2 ^ 53) := by
  rw [floatRound_of_pos _ (-1) 8106479329266893 (by norm_num) (by norm_num) (by norm_num)
    (rndHE_up _ 8106479329266893 (by norm_num) (by norm_num))]
  norm_num

/-- Binary64 rounding of the product of the previous value with `100`. -/
theorem frMul_90 : floatRound ((202661983231672325 : ℚ) / 2 ^ 51) = (90 : ℚ) := by
  rw [floatRound_of_pos _ (6) 6333186975989760 (by norm_num) (by norm_num) (by norm_num)
    (rndHE_down _ 6333186975989760 (by norm_num) (by norm_num))]
  norm_num

/-- Binary64 rounding of `100 / 100`. -/
theorem frDiv_100 : floatRound (1 : ℚ) = (1 : ℚ) := by
  rw [floatRound_of_pos _ (0) 4503599627370496 (by norm_num) (by norm_num) (by norm_num)
    (rndHE_down _ 4503599627370496 (by norm_num) (by norm_num))]
  norm_num

/-- Binary64 rounding of the product of the previous value with `100`. -/
theorem frMul_100 : floatRound (100 : ℚ) = (100 : ℚ) := by
  rw [floatRound_of_pos _ (6) 7036874417766400 (by norm_num) (by norm_num) (by norm_num)
    (rndHE_down _ 7036874417766400 (by norm_num) (by norm_num))]
  norm_num

/-- A small positive integer is a binary64 fixed point. -/
theorem frInt_10 : floatRound (10 : ℚ) = (10 : ℚ) := by
  rw [floatRound_of_pos _ (3) 5629499534213120 (by norm_num) (by norm_num) (by norm_num)
    (rndHE_down _ 5629499534213120 (by norm_num) (by norm_num))]
  norm_num

/-- A small positive integer is a binary64 fixed point. -/
theorem frInt_15 : floatRound (15 : ℚ) = (15 : ℚ) := by
  rw [floatRound_of_pos _ (3) 8444249301319680 (by norm_num) (by norm_num) (by norm_num)
    (rndHE_down _ 8444249301319680 (by norm_num) (by norm_num))]
  norm_num

/-- A small positive integer is a binary64 fixed point. -/
theorem frInt_20 : floatRound (20 : ℚ) = (20 : ℚ) := by
  rw [floatRound_of_pos _ (4) 5629499534213120 (by norm_num) (by norm_num) (by norm_num)
    (rndHE_down _ 5629499534213120 (by norm_num) (by norm_num))]
  norm_num

/-- A small positive integer is a binary64 fixed point. -/
theorem frInt_25 : floatRound (25 : ℚ) = (25 : ℚ) := by
  rw [floatRound_of_pos _ (4) 7036874417766400 (by norm_num) (by norm_num) (by norm_num)
    (rndHE_down _ 7036874417766400 (by norm_num) (by norm_num))]
  norm_num

/-- A small positive integer is a binary64 fixed point. -/
theorem frInt_30 : floatRound (30 : ℚ) = (30 : ℚ) := by
  rw [floatRound_of_pos _ (4) 8444249301319680 (by norm_num) (by norm_num) (by norm_num)
    (rndHE_down _ 8444249301319680 (by norm_num) (by norm_num))]
  norm_num

/-- A small positive integer is a binary64 fixed point. -/
theorem frInt_35 : floatRound (35 : ℚ) = (35 : ℚ) := by
  rw [floatRound_of_pos _ (5) 4925812092436480 (by norm_num) (by norm_num) (by norm_num)
    (rndHE_down _ 4925812092436480 (by norm_num) (by norm_num))]
  norm_num

/-- A small positive integer is a binary64 fixed point. -/
theorem frInt_40 : floatRound (40 : ℚ) = (40 : ℚ) := by
  rw [floatRound_of_pos _ (5) 5629499534213120 (by norm_num) (by norm_num) (by norm_num)
    (rndHE_down _ 5629499534213120 (by norm_num) (by norm_num))]
  norm_num

/-- A small positive integer is a binary64 fixed point. -/
theorem frInt_45 : floatRound (45 : ℚ) = (45 : ℚ) := by
  rw [floatRound_of_pos _ (5) 6333186975989760 (by norm_num) (by norm_num) (by norm_num)
    (rndHE_down _ 6333186975989760 (by norm_num) (by norm_num))]
  norm_num

/-- A small positive integer is a binary64 fixed point. -/
theorem frInt_50 : floatRound (50 : ℚ) = (50 : ℚ) := by
  rw [floatRound_of_pos _ (5) 7036874417766400 (by norm_num) (by norm_num) (by norm_num)
    (rndHE_down _ 7036874417766400 (by norm_num) (by norm_num))]
  norm_num

/-- A small positive integer is a binary64 fixed point. -/
theorem frInt_60 : floatRound (60 : ℚ) = (60 : ℚ) := by
  rw [floatRound_of_pos _ (5) 8444249301319680 (by norm_num) (by norm_num) (by norm_num)
    (rndHE_down _ 8444249301319680 (by norm_num) (by norm_num))]
  norm_num

/-- A small positive integer is a binary64 fixed point. -/
theorem frInt_65 : floatRound (65 : ℚ) = (65 : ℚ) := by
  rw [floatRound_of_pos _ (6) 4573968371548160 (by norm_num) (by norm_num) (by norm_num)
    (rndHE_down _ 4573968371548160 (by norm_num) (by norm_num))]
  norm_num

/-- A small positive integer is a binary64 fixed point. -/
theorem frInt_70 : floatRound (70 : ℚ) = (70 : ℚ) := by
  rw [floatRound_of_pos _ (6) 4925812092436480 (by norm_num) (by norm_num) (by norm_num)
    (rndHE_down _ 4925812092436480 (by norm_num) (by norm_num))]
  norm_num

/-- A small positive integer is a binary64 fixed point. -/
theorem frInt_75 : floatRound (75 : ℚ) = (75 : ℚ) := by
  rw [floatRound_of_pos _ (6) 5277655813324800 (by norm_num) (by norm_num) (by norm_num)
    (rndHE_down _ 5277655813324800 (by norm_num) (by norm_num))]
  norm_num

/-- A small positive integer is a binary64 fixed point. -/
theorem frInt_80 : floatRound (80 : ℚ) = (80 : ℚ) := by
  rw [floatRound_of_pos _ (6) 5629499534213120 (by norm_num) (by norm_num) (by norm_num)
    (rndHE_down _ 5629499534213120 (by norm_num) (by norm_num))]
  norm_num

/-- A small positive integer is a binary64 fixed point. -/
theorem frInt_85 : floatRound (85 : ℚ) = (85 : ℚ) := by
  rw [floatRound_of_pos _ (6) 5981343255101440 (by norm_num) (by norm_num) (by norm_num)
    (rndHE_down _ 5981343255101440 (by norm_num) (by norm_num))]
  norm_num

/-- A small positive integer is a binary64 fixed point. -/
theorem frInt_90 : floatRound (90 : ℚ) = (90 : ℚ) := by
  rw [floatRound_of_pos _ (6) 6333186975989760 (by norm_num) (by norm_num) (by norm_num)
    (rndHE_down _ 6333186975989760 (by norm_num) (by norm_num))]
  norm_num

/-- A small positive integer is a binary64 fixed point. -/
theorem frInt_100 : floatRound (100 : ℚ) = (100 : ℚ) := by
  rw [floatRound_of_pos _ (6) 7036874417766400 (by norm_num) (by norm_num) (by norm_num)
    (rndHE_down _ 7036874417766400 (by norm_num) (by norm_num))]
  norm_num

/-- The rounded completion value at achieved weight 55 is itself representable. -/
theorem frFix_55 : floatRound ((7740561859543041 : ℚ) / 2 ^ 47) = ((7740561859543041 : ℚ) / 2 ^ 47) := by
  rw [floatRound_of_pos _ (5) 7740561859543041 (by norm_num) (by norm_num) (by norm_num)
    (rndHE_down _ 7740561859543041 (by norm_num) (by norm_num))]
  norm_num

/-- Binary64 rounding of `35 / 3`, the exact mean of 10, 10, 15 percent. -/
theorem frMean_3 : floatRound ((35 : ℚ) / 3) = ((6567749456581973 : ℚ) / 2 ^ 49) := by
  rw [floatRound_of_pos _ (3) 6567749456581973 (by norm_num) (by norm_num) (by norm_num)
    (rndHE_down _ 6567749456581973 (by norm_num) (by norm_num))]
  norm_num

/-- The binary64 completion value at achieved weight `10`. -/
theorem fc_10 : floatCompletionOf 10 = (10 : ℚ) := by
  unfold floatCompletionOf pyFloatDiv pyFloatMul
  rw [total_weight_eq,
    show ((10 : ℕ) : ℚ) / ((100 : ℕ) : ℚ) = ((1 : ℚ) / 10) from by norm_num,
    frDiv_10,
    show ((3602879701896397 : ℚ) / 2 ^ 55) * (100 : ℚ) = ((90071992547409925 : ℚ) / 2 ^ 53) from by norm_num,
    frMul_10]

/-- The binary64 completion value at achieved weight `15`. -/
theorem fc_15 : floatCompletionOf 15 = (15 : ℚ) := by
  unfold floatCompletionOf pyFloatDiv pyFloatMul
  rw [total_weight_eq,
    show ((15 : ℕ) : ℚ) / ((100 : ℕ) : ℚ) = ((3 : ℚ) / 20) from by norm_num,
    frDiv_15,
    show ((5404319552844595 : ℚ) / 2 ^ 55) * (100 : ℚ) = ((135107988821114875 : ℚ) / 2 ^ 53) from by norm_num,
    frMul_15]

/-- The binary64 completion value at achieved weight `20`. -/
theorem fc_20 : floatCompletionOf 20 = (20 : ℚ) := by
  unfold floatCompletionOf pyFloatDiv pyFloatMul
  rw [total_weight_eq,
    show ((20 : ℕ) : ℚ) / ((100 : ℕ) : ℚ) = ((1 : ℚ) / 5) from by norm_num,
    frDiv_20,
    show ((3602879701896397 : ℚ) / 2 ^ 54) * (100 : ℚ) = ((90071992547409925 : ℚ) / 2 ^ 52) from by norm_num,
    frMul_20]

/-- The binary64 completion value at achieved weight `25`. -/
theorem fc_25 : floatCompletionOf 25 = (25 : ℚ) := by
  unfold floatCompletionOf pyFloatDiv pyFloatMul
  rw [total_weight_eq,
    show ((25 : ℕ) : ℚ) / ((100 : ℕ) : ℚ) = ((1 : ℚ) / 4) from by norm_num,
    frDiv_25,
    show ((1 : ℚ) / 4) * (100 : ℚ) = (25 : ℚ) from by norm_num,
    frMul_25]

/-- The binary64 completion value at achieved weight `30`. -/
theorem fc_30 : floatCompletionOf 30 = (30 : ℚ) := by
  unfold floatCompletionOf pyFloatDiv pyFloatMul
  rw [total_weight_eq,
    show ((30 : ℕ) : ℚ) / ((100 : ℕ) : ℚ) = ((3 : ℚ) / 10) from by norm_num,
    frDiv_30,
    show ((5404319552844595 : ℚ) / 2 ^ 54) * (100 : ℚ) = ((135107988821114875 : ℚ) / 2 ^ 52) from by norm_num,
    frMul_30]

/-- The binary64 completion value at achieved weight `35`. -/
theorem fc_35 : floatCompletionOf 35 = (35 : ℚ) := by
  unfold floatCompletionOf pyFloatDiv pyFloatMul
  rw [total_weight_eq,
    show ((35 : ℕ) : ℚ) / ((100 : ℕ) : ℚ) = ((7 : ℚ) / 20) from by norm_num,
    frDiv_35,
    show ((3152519739159347 : ℚ) / 2 ^ 53) * (100 : ℚ) = ((78812993478983675 : ℚ) / 2 ^ 51) from by norm_num,
    frMul_35]

/-- The binary64 completion value at achieved weight `40`. -/
theorem fc_40 : floatCompletionOf 40 = (40 : ℚ) := by
  unfold floatCompletionOf pyFloatDiv pyFloatMul
  rw [total_weight_eq,
    show ((40 : ℕ) : ℚ) / ((100 : ℕ) : ℚ) = ((2 : ℚ) / 5) from by norm_num,
    frDiv_40,
    show ((3602879701896397 : ℚ) / 2 ^ 53) * (100 : ℚ) = ((90071992547409925 : ℚ) / 2 ^ 51) from by norm_num,
    frMul_40]

/-- The binary64 completion value at achieved weight `45`. -/
theorem fc_45 : floatCompletionOf 45 = (45 : ℚ) := by
  unfold floatCompletionOf pyFloatDiv pyFloatMul
  rw [total_weight_eq,
    show ((45 : ℕ) : ℚ) / ((100 : ℕ) : ℚ) = ((9 : ℚ) / 20) from by norm_num,
    frDiv_45,
    show ((8106479329266893 : ℚ) / 2 ^ 54) * (100 : ℚ) = ((202661983231672325 : ℚ) / 2 ^ 52) from by norm_num,
    frMul_45]

/-- The binary64 completion value at achieved weight `50`. -/
theorem fc_50 : floatCompletionOf 50 = (50 : ℚ) := by
  unfold floatCompletionOf pyFloatDiv pyFloatMul
  rw [total_weight_eq,
    show ((50 : ℕ) : ℚ) / ((100 : ℕ) : ℚ) = ((1 : ℚ) / 2) from by norm_num,
    frDiv_50,
    show ((1 : ℚ) / 2) * (100 : ℚ) = (50 : ℚ) from by norm_num,
    frMul_50]

/-- The binary64 completion value at achieved weight `55`. -/
theorem fc_55 : floatCompletionOf 55 = ((7740561859543041 : ℚ) / 2 ^ 47) := by
  unfold floatCompletionOf pyFloatDiv pyFloatMul
  rw [total_weight_eq,
    show ((55 : ℕ) : ℚ) / ((100 : ℕ) : ℚ) = ((11 : ℚ) / 20) from by norm_num,
    frDiv_55,
    show ((2476979795053773 : ℚ) / 2 ^ 52) * (100 : ℚ) = ((61924494876344325 : ℚ) / 2 ^ 50) from by norm_num,
    frMul_55]

/-- The binary64 completion value at achieved weight `60`. -/
theorem fc_60 : floatCompletionOf 60 = (60 : ℚ) := by
  unfold floatCompletionOf pyFloatDiv pyFloatMul
  rw [total_weight_eq,
    show ((60 : ℕ) : ℚ) / ((100 : ℕ) : ℚ) = ((3 : ℚ) / 5) from by norm_num,
    frDiv_60,
    show ((5404319552844595 : ℚ) / 2 ^ 53) * (100 : ℚ) = ((135107988821114875 : ℚ) / 2 ^ 51) from by norm_num,
    frMul_60]

/-- The binary64 completion value at achieved weight `65`. -/
theorem fc_65 : floatCompletionOf 65 = (65 : ℚ) := by
  unfold floatCompletionOf pyFloatDiv pyFloatMul
  rw [total_weight_eq,
    show ((65 : ℕ) : ℚ) / ((100 : ℕ) : ℚ) = ((13 : ℚ) / 20) from by norm_num,
    frDiv_65,
    show ((5854679515581645 : ℚ) / 2 ^ 53) * (100 : ℚ) = ((146366987889541125 : ℚ) / 2 ^ 51) from by norm_num,
    frMul_65]

/-- The binary64 completion value at achieved weight `70`. -/
theorem fc_70 : floatCompletionOf 70 = (70 : ℚ) := by
  unfold floatCompletionOf pyFloatDiv pyFloatMul
  rw [total_weight_eq,
    show ((70 : ℕ) : ℚ) / ((100 : ℕ) : ℚ) = ((7 : ℚ) / 10) from by norm_num,
    frDiv_70,
    show ((3152519739159347 : ℚ) / 2 ^ 52) * (100 : ℚ) = ((78812993478983675 : ℚ) / 2 ^ 50) from by norm_num,
    frMul_70]

/-- The binary64 completion value at achieved weight `75`. -/
theorem fc_75 : floatCompletionOf 75 = (75 : ℚ) := by
  unfold floatCompletionOf pyFloatDiv pyFloatMul
  rw [total_weight_eq,
    show ((75 : ℕ) : ℚ) / ((100 : ℕ) : ℚ) = ((3 : ℚ) / 4) from by norm_num,
    frDiv_75,
    show ((3 : ℚ) / 4) * (100 : ℚ) = (75 : ℚ) from by norm_num,
    frMul_75]

/-- The binary64 completion value at achieved weight `80`. -/
theorem fc_80 : floatCompletionOf 80 = (80 : ℚ) := by
  unfold floatCompletionOf pyFloatDiv pyFloatMul
  rw [total_weight_eq,
    show ((80 : ℕ) : ℚ) / ((100 : ℕ) : ℚ) = ((4 : ℚ) / 5) from by norm_num,
    frDiv_80,
    show ((3602879701896397 : ℚ) / 2 ^ 52) * (100 : ℚ) = ((90071992547409925 : ℚ) / 2 ^ 50) from by norm_num,
    frMul_80]

/-- The binary64 completion value at achieved weight `85`. -/
theorem fc_85 : floatCompletionOf 85 = (85 : ℚ) := by
  unfold floatCompletionOf pyFloatDiv pyFloatMul
  rw [total_weight_eq,
    show ((85 : ℕ) : ℚ) / ((100 : ℕ) : ℚ) = ((17 : ℚ) / 20) from by norm_num,
    frDiv_85,
    show ((7656119366529843 : ℚ) / 2 ^ 53) * (100 : ℚ) = ((191402984163246075 : ℚ) / 2 ^ 51) from by norm_num,
    frMul_85]

/-- The binary64 completion value at achieved weight `90`. -/
theorem fc_90 : floatCompletionOf 90 = (90 : ℚ) := by
  unfold floatCompletionOf pyFloatDiv pyFloatMul
  rw [total_weight_eq,
    show ((90 : ℕ) : ℚ) / ((100 : ℕ) : ℚ) = ((9 : ℚ) / 10) from by norm_num,
    frDiv_90,
    show ((8106479329266893 : ℚ) / 2 ^ 53) * (100 : ℚ) = ((202661983231672325 : ℚ) / 2 ^ 51) from by norm_num,
    frMul_90]

/-- The binary64 completion value at achieved weight `100`. -/
theorem fc_100 : floatCompletionOf 100 = (100 : ℚ) := by
  unfold floatCompletionOf pyFloatDiv pyFloatMul
  rw [total_weight_eq,
    show ((100 : ℕ) : ℚ) / ((100 : ℕ) : ℚ) = (1 : ℚ) from by norm_num,
    frDiv_100,
    show (1 : ℚ) * (100 : ℚ) = (100 : ℚ) from by norm_num,
    frMul_100]


/-- Binary64 rounding fixes every completion value the program produces. -/
theorem floatRound_fix (p : PatternStatus) :
    floatRound (completion_percentage_float p) = completion_percentage_float p := by
  rw [show completion_percentage_float p = floatCompletionOf (achieved_weight p) from rfl]
  have hmem : achieved_weight p ∈
      ([0, 10, 15, 20, 25, 30, 35, 40, 45, 50, 55, 60, 65, 70, 75, 80, 85, 90, 100] : List ℕ) :=
    achieved_weight_mem p
  generalize achieved_weight p = a at hmem ⊢
  fin_cases hmem <;>
    first
    | (rw [fc_0]; exact frZero)
    | (rw [fc_10]; exact frInt_10)
    | (rw [fc_15]; exact frInt_15)
    | (rw [fc_20]; exact frInt_20)
    | (rw [fc_25]; exact frInt_25)
    | (rw [fc_30]; exact frInt_30)
    | (rw [fc_35]; exact frInt_35)
    | (rw [fc_40]; exact frInt_40)
    | (rw [fc_45]; exact frInt_45)
    | (rw [fc_50]; exact frInt_50)
    | (rw [fc_55]; exact frFix_55)
    | (rw [fc_60]; exact frInt_60)
    | (rw [fc_65]; exact frInt_65)
    | (rw [fc_70]; exact frInt_70)
    | (rw [fc_75]; exact frInt_75)
    | (rw [fc_80]; exact frInt_80)
    | (rw [fc_85]; exact frInt_85)
    | (rw [fc_90]; exact frInt_90)
    | (rw [fc_100]; exact frInt_100)

/-! ## Claims -/

/-- Claim C1, counterexample. The claim asserts that the completion
percentage equals the exact weighted value for every record; at the record
`poster55` (achieved weight 55) the binary64 evaluation the program performs
returns `55 + 2 ^ (-47)` — displayed `55.00000000000001` — rather than the
exact `55` demanded by the weighted formula. -/
theorem float_completion_at_55_breaks_spec :
    completion_percentage_float poster55 = 55 + ((2 : ℚ) ^ 47)⁻¹ ∧
    specCompletion poster55 = 55 ∧
    completion_percentage_float poster55 ≠ specCompletion poster55 := by
  have h1 : completion_percentage_float poster55 = floatCompletionOf 55 := rfl
  have h2 : specCompletion poster55 = 55 := by
    rw [specCompletion_eq_achieved, show achieved_weight poster55 = 55 from rfl]
    norm_num
  refine ⟨by rw [h1, fc_55]; norm_num, h2, ?_⟩
  rw [h1, fc_55, h2]
  norm_num

/-- Claim C1, amended. For every `LessonRecord`, the completion percentage
is the binary64 evaluation of the weighted formula; it equals the exact
value (sum of the fixed weights of the true presence flags divided by the
total weight 100, times 100) whenever the achieved weight is not 55, while
at achieved weight 55 the program returns the exact value plus `2 ^ (-47)`;
in particular a record with only the documentation and build-descriptor
flags true scores exactly 20. -/
theorem completion_float_matches_spec_except_55 :
    (∀ s : PatternStatus, achieved_weight s ≠ 55 →
      completion_percentage_float s = specCompletion s) ∧
    (∀ s : PatternStatus, achieved_weight s = 55 →
      completion_percentage_float s = specCompletion s + ((2 : ℚ) ^ 47)⁻¹) ∧
    completion_percentage_float readmeCmakeOnly = 20 := by
  refine ⟨?_, ?_, ?_⟩
  · intro s hne
    rw [specCompletion_eq_achieved,
      show completion_percentage_float s = floatCompletionOf (achieved_weight s) from rfl]
    have hmem : achieved_weight s ∈
        ([0, 10, 15, 20, 25, 30, 35, 40, 45, 50, 55, 60, 65, 70, 75, 80, 85, 90, 100] :
          List ℕ) := achieved_weight_mem s
    revert hne
    generalize achieved_weight s = a at hmem ⊢
    intro hne
    fin_cases hmem <;>
      first
      | exact absurd rfl hne
      | norm_num [fc_0, fc_10, fc_15, fc_20, fc_25, fc_30, fc_35, fc_40, fc_45,
          fc_50, fc_60, fc_65, fc_70, fc_75, fc_80, fc_85, fc_90, fc_100]
  · intro s h55
    rw [specCompletion_eq_achieved,
      show completion_percentage_float s = floatCompletionOf (achieved_weight s) from rfl,
      h55, fc_55]
    norm_num
  · rw [show completion_percentage_float readmeCmakeOnly = floatCompletionOf 20 from rfl,
      fc_20]

/-- Witness for `completion_float_matches_spec_except_55` at the
documentation-plus-build-descriptor record, whose achieved weight 20 is not
the inexact weight 55. -/
theorem completion_float_matches_spec_except_55_witness :
    achieved_weight readmeCmakeOnly ≠ 55 ∧
    completion_percentage_float readmeCmakeOnly = specCompletion readmeCmakeOnly :=
  ⟨by decide, completion_float_matches_spec_except_55.1 readmeCmakeOnly (by decide)⟩

/-- Claim C5. For all combinations of the eight presence flags, the completion
percentage lies in `[0, 100]`; it does not decrease when any false flag is
turned true with the others held fixed; and it equals `100` exactly when all
eight flags are true. -/
theorem completion_bounds_monotone_full :
    (∀ s : PatternStatus,
      0 ≤ completion_percentage s ∧ completion_percentage s ≤ 100) ∧
    (∀ s : PatternStatus,
      completion_percentage s ≤ completion_percentage { s with has_readme := true } ∧
      completion_percentage s ≤ completion_percentage { s with has_cmakelists := true } ∧
      completion_percentage s ≤ completion_percentage { s with has_security_analysis := true } ∧
      completion_percentage s ≤ completion_percentage { s with has_security_poster := true } ∧
      completion_percentage s ≤ completion_percentage { s with has_vulnerabilities := true } ∧
      completion_percentage s ≤ completion_percentage { s with has_exploits := true } ∧
      completion_percentage s ≤ completion_percentage { s with has_secure_alternatives := true } ∧
      completion_percentage s ≤ completion_percentage { s with has_cpp23_comparison := true }) ∧
    (∀ s : PatternStatus,
      completion_percentage s = 100 ↔
        (s.has_readme = true ∧ s.has_cmakelists = true ∧
         s.has_security_analysis = true ∧ s.has_security_poster = true ∧
         s.has_vulnerabilities = true ∧ s.has_exploits = true ∧
         s.has_secure_alternatives = true ∧ s.has_cpp23_comparison = true)) := by
  refine ⟨?_, ?_, ?_⟩
  · intro s
    rw [completion_eq_achieved]
    constructor
    · positivity
    · exact_mod_cast achieved_weight_closed s ▸ condAchieved_le _ _ _ _ _ _ _ _
  · intro s
    refine ⟨?_, ?_, ?_, ?_, ?_, ?_, ?_, ?_⟩ <;>
      · rw [completion_eq_achieved, completion_eq_achieved,
          achieved_weight_closed, achieved_weight_closed]
        exact_mod_cast condAchieved_mono _ _ _ _ _ _ _ _ _ _ _ _ _ _ _ _
          (by simp) (by simp) (by simp) (by simp) (by simp) (by simp) (by simp) (by simp)
  · intro s
    rw [completion_eq_achieved, achieved_weight_closed]
    rw [show (100 : ℚ) = ((100 : ℕ) : ℚ) by norm_num, Nat.cast_inj]
    exact condAchieved_eq_100 _ _ _ _ _ _ _ _

/-- Claim C4. The status label and status symbol are total functions of the
completion percentage with non-overlapping brackets covering `[0, 100]`
(`≥90` fully implemented / ✅, `[70, 90)` practically complete / 🟢,
`[50, 70)` partially implemented / 🟡, `[30, 50)` basic structure / 🟠,
`[0, 30)` minimal structure / 🔴), and each boundary value `30, 50, 70, 90`
maps to the higher bracket. -/
theorem status_brackets_total_nonoverlapping :
    (∀ s : PatternStatus,
      get_status_text s = statusTextOf (completion_percentage s) ∧
      get_status_emoji s = statusEmojiOf (completion_percentage s)) ∧
    (∀ c : ℚ, 0 ≤ c → c ≤ 100 →
      ((90 ≤ c ∧ statusTextOf c = "ПОЛНОСТЬЮ РЕАЛИЗОВАН" ∧ statusEmojiOf c = "✅") ∨
       (70 ≤ c ∧ c < 90 ∧ statusTextOf c = "ПРАКТИЧЕСКИ ЗАВЕРШЁН" ∧ statusEmojiOf c = "🟢") ∨
       (50 ≤ c ∧ c < 70 ∧ statusTextOf c = "ЧАСТИЧНО РЕАЛИЗОВАН" ∧ statusEmojiOf c = "🟡") ∨
       (30 ≤ c ∧ c < 50 ∧ statusTextOf c = "БАЗОВАЯ СТРУКТУРА" ∧ statusEmojiOf c = "🟠") ∨
       (0 ≤ c ∧ c < 30 ∧ statusTextOf c = "МИНИМАЛЬНАЯ СТРУКТУРА" ∧ statusEmojiOf c = "🔴"))) ∧
    statusTextOf 90 = "ПОЛНОСТЬЮ РЕАЛИЗОВАН" ∧ statusEmojiOf 90 = "✅" ∧
    statusTextOf 70 = "ПРАКТИЧЕСКИ ЗАВЕРШЁН" ∧ statusEmojiOf 70 = "🟢" ∧
    statusTextOf 50 = "ЧАСТИЧНО РЕАЛИЗОВАН" ∧ statusEmojiOf 50 = "🟡" ∧
    statusTextOf 30 = "БАЗОВАЯ СТРУКТУРА" ∧ statusEmojiOf 30 = "🟠" := by
  refine ⟨fun s => ⟨rfl, rfl⟩, ?_, ?_, ?_, ?_, ?_, ?_, ?_, ?_, ?_⟩
  · intro c h0 h100
    unfold statusTextOf statusEmojiOf
    split_ifs with h1 h2 h3 h4
    · exact Or.inl ⟨h1, rfl, rfl⟩
    · exact Or.inr (Or.inl ⟨h2, by linarith, rfl, rfl⟩)
    · exact Or.inr (Or.inr (Or.inl ⟨h3, by linarith, rfl, rfl⟩))
    · exact Or.inr (Or.inr (Or.inr (Or.inl ⟨h4, by linarith, rfl, rfl⟩)))
    · exact Or.inr (Or.inr (Or.inr (Or.inr ⟨h0, by linarith, rfl, rfl⟩)))
  all_goals norm_num [statusTextOf, statusEmojiOf]

/-- Witness for the bracket part of `status_brackets_total_nonoverlapping`,
instantiated at the boundary value `90`. -/
theorem status_brackets_total_nonoverlapping_witness :
    (90 ≤ (90 : ℚ) ∧ statusTextOf 90 = "ПОЛНОСТЬЮ РЕАЛИЗОВАН" ∧ statusEmojiOf 90 = "✅") ∨
    (70 ≤ (90 : ℚ) ∧ (90 : ℚ) < 90 ∧ statusTextOf 90 = "ПРАКТИЧЕСКИ ЗАВЕРШЁН" ∧
      statusEmojiOf 90 = "🟢") ∨
    (50 ≤ (90 : ℚ) ∧ (90 : ℚ) < 70 ∧ statusTextOf 90 = "ЧАСТИЧНО РЕАЛИЗОВАН" ∧
      statusEmojiOf 90 = "🟡") ∨
    (30 ≤ (90 : ℚ) ∧ (90 : ℚ) < 50 ∧ statusTextOf 90 = "БАЗОВАЯ СТРУКТУРА" ∧
      statusEmojiOf 90 = "🟠") ∨
    (0 ≤ (90 : ℚ) ∧ (90 : ℚ) < 30 ∧ statusTextOf 90 = "МИНИМАЛЬНАЯ СТРУКТУРА" ∧
      statusEmojiOf 90 = "🔴") :=
  status_brackets_total_nonoverlapping.2.1 90 (by norm_num) (by norm_num)

/-- Claim C6. For every lesson directory whose name splits into fewer than
three underscore-delimited segments, the inspection returns no record and
the scan silently omits that directory from the results. -/
theorem short_lesson_name_yields_no_record :
    ∀ (num : Int) (mname : String) (d : LessonDir) (rest : List LessonDir),
      (pySplit d.name '_').length < 3 →
      scanLesson num mname d = Except.ok none ∧
      scanLessons num mname (d :: rest) = scanLessons num mname rest := by
  intro num mname d rest h
  have h1 : scanLesson num mname d = Except.ok none := by
    simp only [scanLesson]
    rw [if_pos h]
  refine ⟨h1, ?_⟩
  simp only [scanLessons]
  rw [h1]

/-- Witness for `short_lesson_name_yields_no_record` at the two-segment
directory name `lesson_1`. -/
theorem short_lesson_name_yields_no_record_witness :
    (pySplit lessonShortName.name '_').length < 3 ∧
    scanLesson 1 "Основы C++" lessonShortName = Except.ok none ∧
    scanLessons 1 "Основы C++" [lessonShortName] = scanLessons 1 "Основы C++" [] :=
  ⟨by decide,
   (short_lesson_name_yields_no_record 1 "Основы C++" lessonShortName [] (by decide)).1,
   (short_lesson_name_yields_no_record 1 "Основы C++" lessonShortName [] (by decide)).2⟩

/-- Claim C3, counterexample. The claim says a lesson directory whose name
has at least three segments but a non-numeric second segment yields no
record and the scan continues non-fatally, i.e. `_scan_lesson` would return
`None` (`Except.ok none`).  At the concrete directory `lesson_x_y_singleton`
the code instead raises `ValueError` from `int(parts[1])`. -/
theorem nonnumeric_ordinal_not_silently_skipped :
    scanLesson 3 "Порождающие паттерны" lessonBadOrdinal =
      Except.error "ValueError: invalid literal for int() with base 10: x" ∧
    scanLesson 3 "Порождающие паттерны" lessonBadOrdinal ≠ Except.ok none :=
  ⟨rfl, by decide⟩

/-- Claim C3, amended. For every lesson directory whose name has at least
three underscore-delimited segments but whose second segment is not a
parseable integer, the inspection raises a `ValueError` (an `Except.error`)
that propagates through the lesson loop and terminates the scan, rather
than being silently skipped. -/
theorem nonnumeric_ordinal_raises_and_aborts :
    ∀ (num : Int) (mname : String) (d : LessonDir),
      3 ≤ (pySplit d.name '_').length →
      pyInt? (pySplit d.name '_')[1]! = none →
      (∃ e, scanLesson num mname d = Except.error e) ∧
      (∀ dirs : List LessonDir, d ∈ dirs →
        ∃ e, scanLessons num mname dirs = Except.error e) := by
  intro num mname d h3 hparse
  have herr : scanLesson num mname d =
      Except.error ("ValueError: invalid literal for int() with base 10: " ++
        (pySplit d.name '_')[1]!) := by
    simp only [scanLesson]
    rw [if_neg (by omega), hparse]
  refine ⟨⟨_, herr⟩, fun dirs => ?_⟩
  induction dirs with
  | nil => intro hmem; cases hmem
  | cons a as ih =>
    intro hmem
    rcases List.mem_cons.mp hmem with rfl | hmem2
    · exact ⟨_, by simp only [scanLessons]; rw [herr]⟩
    · obtain ⟨e, he⟩ := ih hmem2
      cases hsa : scanLesson num mname a with
      | error e2 => exact ⟨e2, by simp only [scanLessons]; rw [hsa]⟩
      | ok o =>
        cases o with
        | none => exact ⟨e, by simp only [scanLessons]; rw [hsa]; exact he⟩
        | some s => exact ⟨e, by simp only [scanLessons]; rw [hsa, he]⟩

/-- Witness for `nonnumeric_ordinal_raises_and_aborts` at the concrete
directory `lesson_x_y_singleton`. -/
theorem nonnumeric_ordinal_raises_and_aborts_witness :
    (∃ e, scanLesson 3 "Порождающие паттерны" lessonBadOrdinal = Except.error e) ∧
    (∃ e, scanLessons 3 "Порождающие паттерны" [lessonBadOrdinal] = Except.error e) := by
  have h := nonnumeric_ordinal_raises_and_aborts 3 "Порождающие паттерны" lessonBadOrdinal
    (by decide) (by decide)
  exact ⟨h.1, h.2 [lessonBadOrdinal] (List.mem_singleton.mpr rfl)⟩

/-- Claim C7. For every lesson directory name with four or more
underscore-delimited segments, the derived pattern identifier equals the
underscore-join of the segments from index 3 onward; for a name with exactly
three segments, it equals the third segment alone. -/
theorem pattern_identifier_from_segments :
    ∀ (num : Int) (mname : String) (d : LessonDir) (s : PatternStatus),
      scanLesson num mname d = Except.ok (some s) →
      (3 < (pySplit d.name '_').length →
        s.pattern_name = pyJoin "_" ((pySplit d.name '_').drop 3)) ∧
      ((pySplit d.name '_').length = 3 →
        s.pattern_name = (pySplit d.name '_')[2]!) := by
  intro num mname d s h
  simp only [scanLesson] at h
  by_cases hlen : (pySplit d.name '_').length < 3
  · rw [if_pos hlen] at h
    simp at h
  · rw [if_neg hlen] at h
    cases hp : pyInt? (pySplit d.name '_')[1]! with
    | none =>
      rw [hp] at h
      simp at h
    | some n =>
      rw [hp] at h
      injection h with h1
      injection h1 with h2
      subst h2
      constructor
      · intro hgt
        dsimp only
        rw [if_pos hgt]
      · intro heq
        dsimp only
        rw [if_neg (by omega)]

/-- Witness for `pattern_identifier_from_segments` at the five-segment
directory name `lesson_1_1_abstract_factory`. -/
theorem pattern_identifier_from_segments_witness :
    3 < (pySplit lessonFourSegments.name '_').length ∧
    lessonFourSegmentsStatus.pattern_name =
      pyJoin "_" ((pySplit lessonFourSegments.name '_').drop 3) :=
  ⟨by decide,
   (pattern_identifier_from_segments 1 "Основы C++" lessonFourSegments
     lessonFourSegmentsStatus (by decide)).1 (by decide)⟩

theorem scanModules_modules_nonempty :
    ∀ (mods : List (String × Int × String)) (proj : List (String × List LessonDir))
      (pats : List PatternStatus) (ms : List (Int × ModuleStats)),
      scanModules proj mods = Except.ok (pats, ms) →
      ∀ x ∈ ms, x.2.patterns ≠ [] := by
  intro mods
  induction mods with
  | nil =>
    intro proj pats ms h x hx
    simp only [scanModules] at h
    injection h with h1
    injection h1 with ha hb
    subst hb
    cases hx
  | cons m rest ih =>
    intro proj pats ms h x hx
    obtain ⟨dirName, num, mname⟩ := m
    simp only [scanModules] at h
    cases hl : lookupModule proj dirName with
    | none =>
      rw [hl] at h
      exact ih proj pats ms h x hx
    | some dirs =>
      rw [hl] at h
      dsimp only at h
      cases hs : scanLessons num mname
          (sortLessons (dirs.filter (fun d => globMatch "lesson_*" d.name))) with
      | error e =>
        rw [hs] at h
        simp at h
      | ok ps =>
        rw [hs] at h
        cases hr : scanModules proj rest with
        | error e =>
          rw [hr] at h
          simp at h
        | ok pr =>
          obtain ⟨restP, restM⟩ := pr
          rw [hr] at h
          dsimp only at h
          by_cases hps : ps = []
          · rw [if_pos hps] at h
            injection h with h1
            injection h1 with ha hb
            subst hb
            exact ih proj restP restM hr x hx
          · rw [if_neg hps] at h
            injection h with h1
            injection h1 with ha hb
            subst hb
            rcases List.mem_cons.mp hx with rfl | hx2
            · exact hps
            · exact ih proj restP restM hr x hx2

/-- Claim C8, counterexample. The claim asserts that a module reports the
exact arithmetic mean of the completion percentages of its lessons; a module
with lessons at 10, 10 and 15 percent reports the binary64 quotient
`6567749456581973 / 2 ^ 49` — displayed `11.666666666666666` — rather than
the exact mean `35 / 3`. -/
theorem average_completion_rounding_counterexample :
    moduleTenTenFifteen.average_completion = 6567749456581973 / 2 ^ 49 ∧
    (moduleTenTenFifteen.patterns.map completion_percentage_float).sum /
        (moduleTenTenFifteen.patterns.length : ℚ) = 35 / 3 ∧
    moduleTenTenFifteen.average_completion ≠
      (moduleTenTenFifteen.patterns.map completion_percentage_float).sum /
        (moduleTenTenFifteen.patterns.length : ℚ) := by
  have e10a : completion_percentage_float lesson10a = 10 := by
    rw [show completion_percentage_float lesson10a = floatCompletionOf 10 from rfl, fc_10]
  have e10b : completion_percentage_float lesson10b = 10 := by
    rw [show completion_percentage_float lesson10b = floatCompletionOf 10 from rfl, fc_10]
  have e15c : completion_percentage_float lesson15c = 15 := by
    rw [show completion_percentage_float lesson15c = floatCompletionOf 15 from rfl, fc_15]
  have hmap : moduleTenTenFifteen.patterns.map completion_percentage_float = [10, 10, 15] := by
    show [completion_percentage_float lesson10a, completion_percentage_float lesson10b,
      completion_percentage_float lesson15c] = [10, 10, 15]
    rw [e10a, e10b, e15c]
  have hlen : moduleTenTenFifteen.patterns.length = 3 := rfl
  have hsum : pyFloatSum [(10 : ℚ), 10, 15] = 35 := by
    have h1 : pyFloatAdd 0 10 = 10 := by
      unfold pyFloatAdd
      rw [show ((0 : ℚ) + 10) = 10 from by norm_num, frInt_10]
    have h2 : pyFloatAdd 10 10 = 20 := by
      unfold pyFloatAdd
      rw [show ((10 : ℚ) + 10) = 20 from by norm_num, frInt_20]
    have h3 : pyFloatAdd 20 15 = 35 := by
      unfold pyFloatAdd
      rw [show ((20 : ℚ) + 15) = 35 from by norm_num, frInt_35]
    simp only [pyFloatSum, List.foldl]
    rw [h1, h2, h3]
  have havg : moduleTenTenFifteen.average_completion = 6567749456581973 / 2 ^ 49 := by
    unfold ModuleStats.average_completion
    rw [if_neg (by simp [moduleTenTenFifteen]), hmap, hsum, hlen]
    unfold pyFloatDiv
    rw [show ((35 : ℚ) / ((3 : ℕ) : ℚ)) = ((35 : ℚ) / 3) from by norm_num, frMean_3]
  have hmean : (moduleTenTenFifteen.patterns.map completion_percentage_float).sum /
      (moduleTenTenFifteen.patterns.length : ℚ) = 35 / 3 := by
    rw [hmap, hlen]
    norm_num
  refine ⟨havg, hmean, ?_⟩
  rw [havg, hmean]
  norm_num

/-- Claim C8, amended. After any scan, the module map contains no module
with zero lessons; for every module in the map the reported mean completion
is the binary64 evaluation of the float sum of its lesson percentages
divided by their count — which coincides with the exact arithmetic mean for
a single-lesson module, though not in general. -/
theorem module_map_no_empty_and_float_mean :
    ∀ (proj : List (String × List LessonDir)) (pats : List PatternStatus)
      (ms : List (Int × ModuleStats)),
      scan proj = Except.ok (pats, ms) →
      ∀ x ∈ ms,
        x.2.patterns ≠ [] ∧
        x.2.average_completion =
          pyFloatDiv (pyFloatSum (x.2.patterns.map completion_percentage_float))
            (x.2.patterns.length : ℚ) ∧
        (∀ p, x.2.patterns = [p] →
          x.2.average_completion = completion_percentage_float p) := by
  intro proj pats ms h x hx
  have h' : scanModules proj MODULES = Except.ok (pats, ms) := h
  have hne := scanModules_modules_nonempty MODULES proj pats ms h' x hx
  refine ⟨hne, ?_, ?_⟩
  · unfold ModuleStats.average_completion
    rw [if_neg hne]
  · intro p hp
    unfold ModuleStats.average_completion
    rw [hp, if_neg (by simp)]
    have h1 : pyFloatSum [completion_percentage_float p] = completion_percentage_float p := by
      simp only [pyFloatSum, List.foldl]
      unfold pyFloatAdd
      rw [zero_add, floatRound_fix p]
    simp only [List.map, List.length_singleton, Nat.cast_one]
    rw [h1]
    unfold pyFloatDiv
    rw [div_one, floatRound_fix p]

/-- Witness for `module_map_no_empty_and_float_mean` on a one-module,
one-lesson project: the single-lesson module reports exactly the percentage
of its lesson. -/
theorem module_map_no_empty_and_float_mean_witness :
    (⟨1, "Основы C++", [smallProjectStatus]⟩ : ModuleStats).patterns ≠ [] ∧
    (⟨1, "Основы C++", [smallProjectStatus]⟩ : ModuleStats).average_completion =
      completion_percentage_float smallProjectStatus := by
  have h := module_map_no_empty_and_float_mean smallProject [smallProjectStatus]
    [(1, ⟨1, "Основы C++", [smallProjectStatus]⟩)] (by decide)
    (1, ⟨1, "Основы C++", [smallProjectStatus]⟩) (List.mem_singleton.mpr rfl)
  exact ⟨h.1, h.2.2 smallProjectStatus rfl⟩

/-- Claim C2, code-bug exhibit. At a lesson directory holding only a README,
no file matches the security-poster or C++23-comparison patterns, yet
`_scan_lesson` sets both flags: `any(lesson_dir.glob(p) for p in patterns)`
tests the truthiness of generator objects, which are always truthy. -/
theorem poster_and_cpp23_flags_set_without_matching_files :
    scanLesson 1 "Основы C++" lessonNoPoster = Except.ok (some lessonNoPosterStatus) ∧
    lessonNoPosterStatus.has_security_poster = true ∧
    lessonNoPosterStatus.has_cpp23_comparison = true ∧
    specHasSecurityPoster "singleton" lessonNoPoster.files = false ∧
    specHasCpp23Comparison lessonNoPoster.files = false := by
  decide

/-- Claim C9, counterexample. The claim says the components cell concatenates
one glyph per true presence flag over all eight flags (with `—` only when no
flag is true).  A record whose only true flag is the build descriptor
(`has_cmakelists`) nevertheless renders `—`: that flag contributes no
glyph. -/
theorem components_cell_ignores_cmakelists :
    cmakeOnly.has_cmakelists = true ∧ components_str cmakeOnly = "—" := by
  decide

theorem components_eq_comps7 (p : PatternStatus) :
    components p = comps7 p.has_readme p.has_security_analysis p.has_security_poster
      p.has_vulnerabilities p.has_exploits p.has_secure_alternatives
      p.has_cpp23_comparison := rfl

theorem components_str_eq_compsStr7 (p : PatternStatus) :
    components_str p = compsStr7 p.has_readme p.has_security_analysis
      p.has_security_poster p.has_vulnerabilities p.has_exploits
      p.has_secure_alternatives p.has_cpp23_comparison := rfl

theorem comps7_length :
    ∀ b1 b3 b4 b5 b6 b7 b8 : Bool,
      (comps7 b1 b3 b4 b5 b6 b7 b8).length =
        cond b1 1 0 + cond b3 1 0 + cond b4 1 0 + cond b5 1 0 +
        cond b6 1 0 + cond b7 1 0 + cond b8 1 0 := by
  decide

theorem compsStr7_dash :
    ∀ b1 b3 b4 b5 b6 b7 b8 : Bool,
      (compsStr7 b1 b3 b4 b5 b6 b7 b8 = "—" ↔
        (b1 = false ∧ b3 = false ∧ b4 = false ∧ b5 = false ∧
         b6 = false ∧ b7 = false ∧ b8 = false)) := by
  intro b1 b3 b4 b5 b6 b7 b8
  cases b1 <;> cases b3 <;> cases b4 <;> cases b5 <;>
    cases b6 <;> cases b7 <;> cases b8 <;> decide

/-- Claim C9, amended. In the per-module lesson table, the components cell
concatenates one glyph per true presence flag among the seven flags
documentation, security-analysis, security-poster, vulnerability-sample,
exploit-sample, secure-alternative, modern-comparison, in that fixed order;
the build-descriptor flag (`has_cmakelists`) contributes no glyph and does
not influence the cell; the cell is `—` exactly when none of those seven
flags is true. -/
theorem components_cell_seven_glyphs :
    ∀ p : PatternStatus,
      (components p).length =
        cond p.has_readme 1 0 + cond p.has_security_analysis 1 0 +
        cond p.has_security_poster 1 0 + cond p.has_vulnerabilities 1 0 +
        cond p.has_exploits 1 0 + cond p.has_secure_alternatives 1 0 +
        cond p.has_cpp23_comparison 1 0 ∧
      (components_str p = "—" ↔
        (p.has_readme = false ∧ p.has_security_analysis = false ∧
         p.has_security_poster = false ∧ p.has_vulnerabilities = false ∧
         p.has_exploits = false ∧ p.has_secure_alternatives = false ∧
         p.has_cpp23_comparison = false)) ∧
      (∀ b : Bool, components_str { p with has_cmakelists := b } = components_str p) := by
  intro p
  refine ⟨?_, ?_, fun b => rfl⟩
  · rw [components_eq_comps7]
    exact comps7_length _ _ _ _ _ _ _
  · rw [components_str_eq_compsStr7]
    exact compsStr7_dash _ _ _ _ _ _ _

/-- Claim C10. If a scan discovers zero lesson records, the aggregate mean
completion is guarded and reported as `0`, but the per-category coverage
computation divides each adoption count by the zero total lesson count, so
both the narrative report and the console summary raise `ZeroDivisionError`
instead of rendering the coverage table. -/
theorem empty_scan_zero_division :
    (get_overall_stats [] []).average_completion = 0 ∧
    generate_markdown "2026-01-01 00:00:00" [] [] =
      Except.error "ZeroDivisionError: division by zero" ∧
    consoleCoverage (get_overall_stats [] []) =
      Except.error "ZeroDivisionError: division by zero" :=
  ⟨rfl, rfl, by decide⟩

end SyncCourse
